import Mathlib

set_option linter.unusedVariables false

namespace UniFiSpec

/-- JSON-like values: the shallow embedding of the Python dict/list/str/int/bool/None
payloads handled by plugins/modules/unifi_api.py. -/
inductive JVal where
  | null
  | bool (b : Bool)
  | num (n : Int)
  | str (s : String)
  | arr (xs : List JVal)
  | obj (fields : List (String × JVal))

/-- Association lists standing for Python dicts; all embedding operations keep
keys unique, and lookups take the first binding. -/
abbrev Dict := List (String × JVal)

/-- First-binding lookup in an association list (Python dict lookup). -/
def lookupF (k : String) : List (String × JVal) → Option JVal
  | [] => none
  | (k2, v) :: rest => if k2 == k then some v else lookupF k rest

theorem lookupF_sizeOf {k : String} : ∀ {l : List (String × JVal)} {v : JVal},
    lookupF k l = some v → sizeOf v < sizeOf l := by
  intro l
  induction l with
  | nil => intro v h; simp [lookupF] at h
  | cons kv rest ih =>
      intro v h
      obtain ⟨k2, w⟩ := kv
      simp only [lookupF] at h
      split at h
      · cases h
        simp only [List.cons.sizeOf_spec, Prod.mk.sizeOf_spec]
        omega
      · have := ih h
        simp only [List.cons.sizeOf_spec, Prod.mk.sizeOf_spec]
        omega

/-- Every key of the first association list is present in the second
(no value comparison; used for the reverse inclusion of dict equality). -/
def keysSubset (a b : List (String × JVal)) : Bool :=
  a.all (fun kv => (lookupF kv.1 b).isSome)

mutual

/-- Python `==` on JSON values: numbers and booleans compare across types
(True == 1), lists compare pointwise, dicts compare as finite maps (every
binding of the left dict matched in the right, and every right key present on
the left; for the unique-key dicts this embedding builds, that is exactly
Python's unordered dict equality). -/
def JVal.beq : JVal → JVal → Bool
  | .null, b => match b with | .null => true | _ => false
  | .bool a, b =>
      match b with
      | .bool c => a == c
      | .num n => (if a then (1 : Int) else 0) == n
      | _ => false
  | .num a, b =>
      match b with
      | .num c => a == c
      | .bool c => a == (if c then (1 : Int) else 0)
      | _ => false
  | .str a, b => match b with | .str c => a == c | _ => false
  | .arr xs, b => match b with | .arr ys => JVal.beqList xs ys | _ => false
  | .obj fa, b =>
      match b with
      | .obj fb => keysSubset fb fa && JVal.fieldsMatch fa fb
      | _ => false

/-- Pointwise Python `==` on lists. -/
def JVal.beqList : List JVal → List JVal → Bool
  | [], ys => ys.isEmpty
  | x :: xs, ys =>
      match ys with
      | [] => false
      | y :: ys2 => JVal.beq x y && JVal.beqList xs ys2

/-- Every binding of the first dict is matched (by Python `==`) in the second. -/
def JVal.fieldsMatch : List (String × JVal) → List (String × JVal) → Bool
  | [], _ => true
  | (k, v) :: rest, other =>
      (match lookupF k other with
       | some w => JVal.beq v w
       | none => false) && JVal.fieldsMatch rest other

end

/-- Python truthiness on JSON values. -/
def JVal.truthy : JVal → Bool
  | .null => false
  | .bool b => b
  | .num n => n != 0
  | .str s => s ≠ ""
  | .arr xs => !xs.isEmpty
  | .obj fs => !fs.isEmpty

/-- Tests whether a value is the Python `None` singleton (`is None`). -/
def JVal.isNull : JVal → Bool
  | .null => true
  | _ => false

mutual

/-- Python `str()` of a value; scalar cases are exact, containers use the
repr-of-elements rendering Python applies inside containers. -/
def pyStr : JVal → String
  | .null => "None"
  | .bool b => if b then "True" else "False"
  | .num n => toString n
  | .str s => s
  | .arr xs => "[" ++ pyReprList xs ++ "]"
  | .obj fs => "\x7b" ++ pyReprFields fs ++ "\x7d"

/-- Python `repr()` of a value (strings gain quotes). -/
def pyRepr : JVal → String
  | .null => "None"
  | .bool b => if b then "True" else "False"
  | .num n => toString n
  | .str s => "\x27" ++ s ++ "\x27"
  | .arr xs => "[" ++ pyReprList xs ++ "]"
  | .obj fs => "\x7b" ++ pyReprFields fs ++ "\x7d"

/-- Comma-separated reprs of list elements. -/
def pyReprList : List JVal → String
  | [] => ""
  | [x] => pyRepr x
  | x :: xs => pyRepr x ++ ", " ++ pyReprList xs

/-- Comma-separated `'key': value` reprs of dict entries. -/
def pyReprFields : List (String × JVal) → String
  | [] => ""
  | [(k, v)] => "\x27" ++ k ++ "\x27: " ++ pyRepr v
  | (k, v) :: rest => "\x27" ++ k ++ "\x27: " ++ pyRepr v ++ ", " ++ pyReprFields rest

end

/-- Python `int()` conversion: ints pass through, booleans become 0/1, strings
are parsed (trimmed, optional sign); `none` stands for the ValueError/TypeError
Python raises on everything else. -/
def pyInt : JVal → Option Int
  | .num n => some n
  | .bool b => some (if b then 1 else 0)
  | .str s =>
      let t := s.trim
      let t := if t.startsWith "+" then t.drop 1 else t
      t.toInt?
  | _ => none

/-- Python `d.get(k)` (None when absent is represented by the default). -/
def dictGet? (d : Dict) (k : String) : Option JVal := lookupF k d

/-- Python `d.get(k, v0)`. -/
def dictGetD (d : Dict) (k : String) (v0 : JVal) : JVal := (dictGet? d k).getD v0

/-- Python `k in d`. -/
def dictContains (d : Dict) (k : String) : Bool := (dictGet? d k).isSome

/-- In-place replacement of the binding for `k` (keys are unique, so this is
Python overwriting an existing key). -/
def dictReplace : Dict → String → JVal → Dict
  | [], _, _ => []
  | (k1, w) :: rest, k, v =>
      if k1 == k then (k, v) :: dictReplace rest k v
      else (k1, w) :: dictReplace rest k v

/-- Python `d[k] = v`: replace in place when present, append otherwise. -/
def dictSet (d : Dict) (k : String) (v : JVal) : Dict :=
  if dictContains d k then dictReplace d k v
  else d ++ [(k, v)]

/-- Python `d.pop(k)`'s effect on the dict (the popped value is read separately). -/
def dictPop (d : Dict) (k : String) : Dict := d.filter (fun kv => !(kv.1 == k))

/-- Python `d.update(p)`: overlay the bindings of `p` onto `d`. -/
def dictUpdate (d : Dict) (p : Dict) : Dict := p.foldl (fun acc kv => dictSet acc kv.1 kv.2) d

/-- Python `==` lifted to optional values where `none` is a failed lookup
(used for generator-expression filters, never equal to anything). -/
def optJBeq (a : Option JVal) (b : Option JVal) : Bool :=
  match a, b with
  | some x, some y => JVal.beq x y
  | _, _ => false

/-- Python truthiness of an optional value (None is falsy). -/
def truthyOpt : Option JVal → Bool
  | none => false
  | some v => v.truthy

/-- Exception taxonomy of unifi_api.py: the UniFiError hierarchy plus the raw
Python exceptions that the module would let escape (KeyError, TypeError, ...). -/
inductive UErr where
  | authError (msg : String)
  | apiError (msg : String)
  | configError (msg : String)
  | constraintError (msg : String)
  | baseError (msg : String)
  | pyExc (name : String)
deriving DecidableEq

/-- One HTTP call issued through api_call: resolved endpoint, method, JSON body. -/
structure Call where
  endpoint : String
  method : String
  body : Option JVal

/-- GET firewall rules, networks, groups, zones, wlans: fetch endpoints with
site_id = "default" (the client never changes self.site_id). -/
def getNetworksCall : Call := ⟨"api/s/default/rest/networkconf", "GET", none⟩

def getFirewallRulesCall : Call := ⟨"api/s/default/rest/firewallrule", "GET", none⟩

def getFirewallGroupsCall : Call := ⟨"api/s/default/rest/firewallgroup", "GET", none⟩

def getZonesCall : Call := ⟨"v2/api/site/default/firewall/zone", "GET", none⟩

def getWlanConfigsCall : Call := ⟨"api/s/default/rest/wlanconf", "GET", none⟩

/-- Result dict of a reconciliation method: the "changed"/"data"/"msg" keys it
returns to the Ansible layer. -/
structure OpRes where
  changed : Bool
  data : Option JVal
  msg : Option String

/-- The controller as seen through the client's GET helpers: each field is the
`result.get("data", [])` list (or, for v2 endpoints, the unwrapped list) that
the corresponding fetch returns; `mutResp` is the response body the controller
sends back for a mutating call on a given endpoint/method. -/
structure Env where
  networks : List Dict
  firewallRules : List Dict
  firewallGroups : List Dict
  zones : List Dict
  wlanConfigs : List Dict
  settings : String → List Dict
  apgroupsV2 : Except String (List Dict)
  apgroupsLegacy : Except String (List Dict)
  mutResp : String → String → JVal

/-- Predicate "every call in the trace is a read": no mutating HTTP call. -/
def callsReadOnly (calls : List Call) : Prop := ∀ c ∈ calls, c.method = "GET"

/-- UniFiConstraintValidator.validate_firewall_rules, with the limits dict
(read by get_limits from .validation-config.yml, an I/O boundary) passed as a
parameter. -/
def validate_firewall_rules (limits : Dict) (rules : List Dict) : Except UErr Dict :=
  let maxRules := dictGetD limits "firewall_rules" .null
  let ruleCount : Int := rules.length
  if !maxRules.isNull && !(JVal.beq maxRules (.str "unlimited")) then
    match pyInt maxRules with
    | none => .error (.pyExc "ValueError")
    | some m =>
        if ruleCount > m then
          .error (.constraintError ("CONSTRAINT VIOLATION: " ++ toString ruleCount ++
            " firewall rules exceeds max " ++ pyStr maxRules))
        else
          .ok [("valid", .bool true), ("count", .num ruleCount), ("compliant", .bool true),
               ("max", maxRules)]
  else
    .ok [("valid", .bool true), ("count", .num ruleCount), ("compliant", .bool true),
         ("max", maxRules)]

/-- UniFiConstraintValidator.validate_vlans: only networks whose purpose is
corporate or guest count against the limit. -/
def validate_vlans (limits : Dict) (networks : List Dict) : Except UErr Dict :=
  let maxVlans := dictGetD limits "vlans" .null
  let vlans := networks.filter (fun n =>
    JVal.beq (dictGetD n "purpose" .null) (.str "corporate") ||
    JVal.beq (dictGetD n "purpose" .null) (.str "guest"))
  let vlanCount : Int := vlans.length
  if !maxVlans.isNull && !(JVal.beq maxVlans (.str "unlimited")) then
    match pyInt maxVlans with
    | none => .error (.pyExc "ValueError")
    | some m =>
        if vlanCount > m then
          .error (.constraintError ("CONSTRAINT VIOLATION: " ++ toString vlanCount ++
            " VLANs exceeds max " ++ pyStr maxVlans))
        else
          .ok [("valid", .bool true), ("count", .num vlanCount), ("compliant", .bool true),
               ("max", maxVlans)]
  else
    .ok [("valid", .bool true), ("count", .num vlanCount), ("compliant", .bool true),
         ("max", maxVlans)]

/-- The failure entry validate_all records when a check raises
UniFiConstraintError (str(e) is the exception message). -/
def constraintFailDict (m : String) : Dict :=
  [("valid", .bool false), ("error", .str m), ("compliant", .bool false)]

/-- The `try/except UniFiConstraintError` wrapper inside validate_all: a
constraint violation becomes a failure entry, any other exception escapes. -/
def constraintCatch : Except UErr Dict → Except UErr Dict
  | .error (.constraintError m) => .ok (constraintFailDict m)
  | x => x

/-- The controller-state snapshot validate_all receives:
`\x7b"firewall_rules": [...], "networks": [...]\x7d`. -/
structure CState where
  firewall_rules : List Dict
  networks : List Dict

/-- UniFiConstraintValidator.validate_all: run both checks, each inside its own
`except UniFiConstraintError` handler, and return both entries. -/
def validate_all (limits : Dict) (st : CState) : Except UErr Dict :=
  match constraintCatch (validate_firewall_rules limits st.firewall_rules) with
  | .error e => .error e
  | .ok f =>
      match constraintCatch (validate_vlans limits st.networks) with
      | .error e => .error e
      | .ok v => .ok [("firewall", .obj f), ("vlans", .obj v)]

/-- Outcome of ensure_jwt_fresh: api_key no-op, a cache hit (token still fresh),
or a re-login through _login_ssh/_login_jwt (both I/O boundaries). -/
inductive FreshOut where
  | noop
  | cacheHit
  | reloginSsh
  | reloginJwt
deriving DecidableEq

/-- The client's auth-related state: auth_mode, host, and the held JWT fields
(JVal.null stands for Python None). -/
structure AuthSt where
  authMode : String
  host : String
  jwtToken : JVal
  jwtExp : JVal
  csrfToken : JVal

/-- Which login ensure_jwt_fresh falls into when the token is expired or
missing. -/
def reloginOut (st : AuthSt) : FreshOut :=
  if st.authMode == "ssh_key" then .reloginSsh else .reloginJwt

/-- The freshness test of ensure_jwt_fresh (lines 478-482):
`if self.jwt_token and self.jwt_exp: if current_time < self.jwt_exp - 60`.
Returns whether the held credential is still fresh; non-numeric expiries that
pass truthiness reproduce the TypeError Python would raise on subtraction. -/
def tokenFresh (tok expv : JVal) (now : Int) : Except UErr Bool :=
  if JVal.truthy tok && JVal.truthy expv then
    match expv with
    | .num e => .ok (decide (now < e - 60))
    | .bool b => .ok (decide (now < (if b then (1 : Int) else 0) - 60))
    | _ => .error (.pyExc "TypeError")
  else .ok false

/-- UniFiClient.ensure_jwt_fresh: `cacheFile` is the parsed ~/.unifi_jwt_cache
JSON (none when the file is absent or unparsable, both of which the code treats
as no cache), `now` is int(time.time()). Returns the path taken together with
the state after any cache load; the login flows themselves and the cache
write-back are I/O boundaries outside this function. -/
def ensure_jwt_fresh (st : AuthSt) (cacheFile : Option Dict) (now : Int) :
    Except UErr (FreshOut × AuthSt) :=
  if st.authMode == "api_key" then .ok (.noop, st)
  else
    let st' :=
      if !(JVal.truthy st.jwtToken) then
        match cacheFile with
        | none => st
        | some cd =>
            if JVal.beq (dictGetD cd "host" .null) (.str st.host) then
              { st with jwtToken := dictGetD cd "jwt" .null,
                        jwtExp := dictGetD cd "exp" .null,
                        csrfToken := dictGetD cd "csrf" .null }
            else st
      else st
    match tokenFresh st'.jwtToken st'.jwtExp now with
    | .error e => .error e
    | .ok true => .ok (.cacheHit, st')
    | .ok false => .ok (reloginOut st', st')

/-- Body of a live HTTP response: empty text, JSON-parsable text, or text whose
json.loads raises (`emsg` is the decode-error text). -/
inductive RespBody where
  | empty
  | invalid (raw : String) (emsg : String)
  | parsed (v : JVal) (raw : String)

/-- Outcome of the urllib request inside api_call: a 2xx response with a body,
an HTTPError with status/body/reason, or an OSError/ValueError (`netError`). -/
inductive HttpOutcome where
  | success (body : RespBody)
  | httpError (code : Nat) (body : RespBody) (reason : String)
  | netError (emsg : String)

/-- The canonical empty success envelope api_call substitutes for an empty 2xx
body. -/
def emptyEnvelope : JVal :=
  .obj [("meta", .obj [("rc", .str "ok")]), ("data", .arr [])]

/-- Error-message extraction for a non-401 HTTPError body (unifi_api.py lines
849-856): meta.msg when present, overridden by a v2 error.message; any
AttributeError falls back to `raw_body or str(e.reason)`. -/
def httpErrMsg (v : JVal) (raw : String) (reason : String) : JVal :=
  let fallback : JVal := .str (if raw == "" then reason else raw)
  match v with
  | .obj fs =>
      let metaStep : Option JVal :=
        match lookupF "meta" fs with
        | none => some (.str raw)
        | some (.obj ms) => some (dictGetD ms "msg" (.str raw))
        | some _ => none
      match metaStep with
      | none => fallback
      | some m0 =>
          match lookupF "error" fs with
          | none => m0
          | some (.obj es) => dictGetD es "message" (.str "V2 API Error")
          | some _ => fallback
  | _ => fallback

/-- Response handling of UniFiClient.api_call in live mode (lines 833-876):
classify the HTTP outcome into the returned envelope or the raised error. -/
def apiCallClassify (endpoint : String) (outcome : HttpOutcome) : Except UErr JVal :=
  match outcome with
  | .netError m => .error (.apiError ("Request failed on " ++ endpoint ++ ": " ++ m))
  | .httpError code body reason =>
      if code == 401 then .error (.authError ("Unauthorized (401) on " ++ endpoint))
      else
        let raw := match body with
          | .empty => ""
          | .invalid r _ => r
          | .parsed _ r => r
        let msg : JVal := match body with
          | .parsed v _ => httpErrMsg v raw reason
          | _ => .str (if raw == "" then reason else raw)
        .error (.apiError ("HTTP " ++ toString code ++ " on " ++ endpoint ++ ": " ++ pyStr msg))
  | .success body =>
      match body with
      | .empty => .ok emptyEnvelope
      | .invalid _ emsg => .error (.apiError ("Request failed on " ++ endpoint ++ ": " ++ emsg))
      | .parsed v _ =>
          match v with
          | .obj fs =>
              match lookupF "meta" fs with
              | some (.obj ms) =>
                  if JVal.beq (dictGetD ms "rc" .null) (.str "error") then
                    .error (.apiError (endpoint ++ ": " ++
                      pyStr (dictGetD ms "msg" (.str "Unknown error"))))
                  else .ok v
              | some _ => .error (.pyExc "AttributeError")
              | none => .ok v
          | _ => .ok v

/-- One entry of UniFiClient._REGISTRY. -/
structure RegEntry where
  path : String
  method : String
  guardian : String
  description : String

/-- UniFiClient._REGISTRY, the canonical endpoint registry (lines 183-310). -/
def REGISTRY : List (String × RegEntry) := [
  ("discover_sites",
    ⟨"api/v1/sites", "GET", "Bauer", "Discover all sites in controller"⟩),
  ("get_devices",
    ⟨"integration/v1/sites/\x7bsite_uuid\x7d/devices", "GET", "Carter",
     "Get devices (APs, switches, USG) for site"⟩),
  ("get_networks_v2",
    ⟨"api/s/\x7bsite_id\x7d/rest/networkconf", "GET", "Beale",
     "Modern API for networks/VLANs (Hellodeolu v7)"⟩),
  ("get_wifi_broadcasts",
    ⟨"api/s/\x7bsite_id\x7d/rest/wlanconf", "GET", "Carter",
     "Modern API for SSIDs/WiFi configuration"⟩),
  ("get_firewall_zones",
    ⟨"api/s/\x7bsite_id\x7d/rest/firewallzone", "GET", "Beale",
     "Modern API for Zone-Based Firewall zones"⟩),
  ("get_acl_rules",
    ⟨"api/s/\x7bsite_id\x7d/rest/firewallrule", "GET", "Beale",
     "Modern API for Access Control Lists"⟩),
  ("get_firewall_rules",
    ⟨"api/s/\x7bsite_id\x7d/rest/firewallrule", "GET", "Beale",
     "Fetch firewall rules (Hellodeolu: Unlimited)"⟩),
  ("create_firewall_rule",
    ⟨"api/s/\x7bsite_id\x7d/rest/firewallrule", "POST", "Beale",
     "Create firewall rule (requires Beale validation)"⟩),
  ("get_networks",
    ⟨"api/s/\x7bsite_id\x7d/rest/networkconf", "GET", "Beale",
     "Fetch VLANs and network configs (Hellodeolu constraint: max 10)"⟩),
  ("create_network",
    ⟨"api/s/\x7bsite_id\x7d/rest/networkconf", "POST", "Beale",
     "Create VLAN (requires Beale validation)"⟩),
  ("get_wlan_configs",
    ⟨"api/s/\x7bsite_id\x7d/rest/wlanconf", "GET", "Carter",
     "Fetch wireless network configurations (Max 4 SSIDs)"⟩),
  ("create_wlan_config",
    ⟨"api/s/\x7bsite_id\x7d/rest/wlanconf", "POST", "Carter",
     "Create new SSID (requires Carter validation)"⟩),
  ("adopt_device",
    ⟨"api/s/\x7bsite_id\x7d/cmd/devmgr", "POST", "Bauer",
     "Adopt unadopted device by MAC address"⟩),
  ("get_backup_settings",
    ⟨"api/s/\x7bsite_id\x7d/rest/setting/autobackup", "GET", "Bauer",
     "Fetch autobackup settings"⟩),
  ("get_system_settings",
    ⟨"api/s/\x7bsite_id\x7d/rest/setting/mgmt", "GET", "Bauer",
     "Fetch general system management settings (SSH, MDNS)"⟩),
  ("get_security_settings",
    ⟨"api/s/\x7bsite_id\x7d/rest/setting/connectivity", "GET", "Beale",
     "Fetch global security and connectivity settings"⟩),
  ("get_port_profiles",
    ⟨"api/s/\x7bsite_id\x7d/rest/portconf", "GET", "Beale",
     "Fetch switch port profiles (VLAN assignments, PoE)"⟩),
  ("get_device_ports",
    ⟨"api/s/\x7bsite_id\x7d/stat/device", "GET", "Beale",
     "Fetch device-specific port status and configurations"⟩),
  ("get_clients",
    ⟨"api/s/\x7bsite_id\x7d/stat/sta", "GET", "Bauer",
     "Fetch active clients table"⟩),
  ("get_devices_legacy",
    ⟨"api/s/\x7bsite_id\x7d/stat/device", "GET", "Bauer",
     "Get devices using legacy stat API (includes _id)"⟩),
  ("update_device",
    ⟨"api/s/\x7bsite_id\x7d/rest/device/\x7bdevice_id\x7d", "PUT", "Beale",
     "Update device configuration (Legacy REST API)"⟩)]

/-- Registry lookup (`endpoint in self._REGISTRY`). -/
def lookupReg (name : String) : Option RegEntry :=
  (REGISTRY.find? (fun e => e.1 == name)).map (·.2)

/-- Character-list prefix test. -/
def charsStartsWith : List Char → List Char → Bool
  | _, [] => true
  | [], _ :: _ => false
  | h :: t, p :: ps => h == p && charsStartsWith t ps

/-- Character-list substring containment. -/
def charsContains : List Char → List Char → Bool
  | [], pat => pat.isEmpty
  | h :: t, pat => charsStartsWith (h :: t) pat || charsContains t pat

/-- Substring containment (Python `pat in s`). -/
def substrContains (s pat : String) : Bool := charsContains s.toList pat.toList

/-- Left-to-right non-overlapping replacement on character lists; the fuel is
at least the haystack length, so every occurrence is processed. -/
def charsReplaceF : Nat → List Char → List Char → List Char → List Char
  | 0, hay, _, _ => hay
  | _ + 1, [], _, _ => []
  | fuel + 1, h :: t, pat, rep =>
      if charsStartsWith (h :: t) pat && !pat.isEmpty then
        rep ++ charsReplaceF fuel (List.drop (pat.length - 1) t) pat rep
      else h :: charsReplaceF fuel t pat rep

/-- Python `s.replace(pat, rep)` for non-empty patterns. -/
def strReplace (s pat rep : String) : String :=
  ⟨charsReplaceF s.toList.length s.toList pat.toList rep.toList⟩

/-- One audit-trail entry as recorded by _log_audit (the time.time() timestamp,
pure I/O, is omitted). -/
structure AuditEv where
  event : String
  data : Dict

/-- The client state that simulation-mode api_call reads and writes: the
lazily discovered site UUID and the in-memory audit trail. -/
structure SimSt where
  siteUuid : Option String
  audit : List AuditEv

/-- The ordered path-substring table of canned simulation payloads
(api_call lines 712-812). -/
def simResponse (endpoint : String) : JVal :=
  if substrContains endpoint "stat/device" then
    .obj [("meta", .obj [("rc", .str "ok")]),
          ("data", .arr [
            .obj [("mac", .str "fc:ec:da:4e:1c:bd"), ("model", .str "US8P60"),
                  ("name", .str "Switch-Homelab"), ("device_id", .str "mock_id_123"),
                  ("_id", .str "mock_id_123"),
                  ("port_table", .arr [
                    .obj [("port_idx", .num 4), ("name", .str "Port 4"),
                          ("native_networkconf_id", .str "vlan1")]])]])]
  else if substrContains endpoint "sites" then
    .obj [("meta", .obj [("rc", .str "ok")]),
          ("data", .arr [
            .obj [("name", .str "default"), ("desc", .str "Default"),
                  ("_id", .str "site_default_id"), ("id", .str "site_default_id")]])]
  else if substrContains endpoint "networkconf" then
    .obj [("meta", .obj [("rc", .str "ok")]),
          ("data", .arr [
            .obj [("name", .str "Default"), ("vlan", .num 1), ("_id", .str "vlan1_id"),
                  ("purpose", .str "corporate")],
            .obj [("name", .str "Servers"), ("vlan", .num 10), ("_id", .str "vlan10_id"),
                  ("purpose", .str "corporate")],
            .obj [("name", .str "Trusted"), ("vlan", .num 30), ("_id", .str "vlan30_id"),
                  ("purpose", .str "corporate")],
            .obj [("name", .str "Guest"), ("vlan", .num 80), ("_id", .str "vlan80_id"),
                  ("purpose", .str "corporate")],
            .obj [("name", .str "IoT"), ("vlan", .num 90), ("_id", .str "vlan90_id"),
                  ("purpose", .str "corporate")]])]
  else if substrContains endpoint "apgroup" then
    .obj [("meta", .obj [("rc", .str "ok")]),
          ("data", .arr [.obj [("name", .str "All APs"), ("_id", .str "apgroup_all_id")]])]
  else if substrContains endpoint "rest/wlanconf" then
    .obj [("meta", .obj [("rc", .str "ok")]),
          ("data", .arr [
            .obj [("name", .str "Old_SSID_1"), ("_id", .str "old1"), ("security", .str "wpapsk")],
            .obj [("name", .str "Old_SSID_2"), ("_id", .str "old2"), ("security", .str "wpapsk")],
            .obj [("name", .str "Old_SSID_3"), ("_id", .str "old3"), ("security", .str "wpapsk")],
            .obj [("name", .str "Old_SSID_4"), ("_id", .str "old4"), ("security", .str "wpapsk")]])]
  else if substrContains endpoint "firewall/zone" then
    .obj [("meta", .obj [("rc", .str "ok")]),
          ("data", .arr [
            .obj [("name", .str "Internal"), ("_id", .str "zone_internal_id")],
            .obj [("name", .str "Management"), ("_id", .str "zone_mgmt_id")],
            .obj [("name", .str "Servers"), ("_id", .str "zone_servers_id")],
            .obj [("name", .str "Trusted"), ("_id", .str "zone_trusted_id")],
            .obj [("name", .str "IoT"), ("_id", .str "zone_iot_id")]])]
  else if substrContains endpoint "acl-rules" then
    .obj [("meta", .obj [("rc", .str "ok")]), ("data", .arr [])]
  else if substrContains endpoint "object-oriented-network-config" then
    .obj [("meta", .obj [("rc", .str "ok")]), ("data", .arr [])]
  else
    .obj [("meta", .obj [("rc", .str "ok")]), ("data", .arr [])]

/-- The simulation branch of api_call on an already-resolved path: append one
simulation_api_call audit event and return the canned payload. -/
def simApiCallRaw (st : SimSt) (endpoint method : String) : SimSt × JVal :=
  ({ st with audit := st.audit ++
      [⟨"simulation_api_call", [("endpoint", .str endpoint), ("method", .str method)]⟩] },
   simResponse endpoint)

/-- `result.get("data", [])` on a canned envelope. -/
def jGetDataList (v : JVal) : List JVal :=
  match v with
  | .obj fs =>
      match lookupF "data" fs with
      | some (.arr xs) => xs
      | _ => []
  | _ => []

/-- UniFiClient.discover_sites in simulation mode: api_call on the literal
path "integration/v1/sites" (not a registry key, so no recursive lookup),
then cache sites[0]["id"] and log site_discovered. -/
def discover_sites_sim (st : SimSt) : SimSt :=
  let (st1, result) := simApiCallRaw st "integration/v1/sites" "GET"
  let sites := jGetDataList result
  match sites with
  | [] => st1
  | s :: _ =>
      match s with
      | .obj fs =>
          match lookupF "id" fs with
          | some (.str u) =>
              { st1 with siteUuid := some u,
                         audit := st1.audit ++
                           [⟨"site_discovered", [("site_uuid", .str u),
                                                 ("count", .num sites.length)]⟩] }
          | _ => st1
      | _ => st1

/-- `path_template.format(site_id=..., site_uuid=..., **kwargs)`. -/
def fmtPath (tmpl : String) (siteUuid : String) (kwargs : List (String × String)) : String :=
  let s := strReplace (strReplace tmpl "\x7bsite_id\x7d" "default") "\x7bsite_uuid\x7d" siteUuid
  kwargs.foldl (fun acc kv => strReplace acc ("\x7b" ++ kv.1 ++ "\x7d") kv.2) s

/-- UniFiClient.api_call with simulation_mode = True: registry resolution
(with lazy site-UUID discovery), then the canned-response branch. Returns the
new state and the payload. -/
def apiCallSim (st : SimSt) (endpoint : String) (method : Option String)
    (kwargs : List (String × String)) : SimSt × JVal :=
  match lookupReg endpoint with
  | some entry =>
      let m := method.getD entry.method
      let st1 :=
        if substrContains entry.path "\x7bsite_uuid\x7d" && st.siteUuid.isNone then
          discover_sites_sim st
        else st
      let ep := fmtPath entry.path (st1.siteUuid.getD "PENDING") kwargs
      simApiCallRaw st1 ep m
  | none => simApiCallRaw st endpoint (method.getD "GET")

/-- The VLAN filter of create_firewall_rule's generator expression (lines
961-963): tag "1" also matches a network named "Default", otherwise the tag
matches str(n.get("vlan")). -/
def vlanAliasMatch (vlanVal : JVal) (n : Dict) : Bool :=
  (pyStr vlanVal == "1" && JVal.beq (dictGetD n "name" .null) (.str "Default")) ||
  (pyStr (dictGetD n "vlan" .null) == pyStr vlanVal)

/-- `next((n["_id"] for n in networks if <vlanAliasMatch>), None)`: the _id of
the first matching network, None when nothing matches, KeyError when the
matching record lacks "_id". -/
def findNetId (networks : List Dict) (vlanVal : JVal) : Except UErr (Option JVal) :=
  match networks.find? (vlanAliasMatch vlanVal) with
  | none => .ok none
  | some n =>
      match dictGet? n "_id" with
      | none => .error (.pyExc "KeyError")
      | some i => .ok (some i)

/-- dst_vlan half of create_firewall_rule's VLAN resolution (lines 971-986);
the network list was already fetched by the src half. -/
def cfrDstVlan (networks : List Dict) (payload : Dict) : Except UErr Dict :=
  if dictContains payload "dst_vlan" then
    let v := dictGetD payload "dst_vlan" .null
    let p := dictPop payload "dst_vlan"
    match findNetId networks v with
    | .error e => .error e
    | .ok o =>
        if !truthyOpt o then
          .error (.baseError ("Destination VLAN " ++ pyStr v ++ " not found"))
        else
          .ok (dictSet (dictSet p "dst_networkconf_id" (o.getD .null))
                "dst_networkconf_type" (.str "NETv4"))
  else .ok payload

/-- VLAN-resolution phase of create_firewall_rule (lines 952-986): one
get_networks fetch when either key is present, then src then dst resolution. -/
def cfrVlanPhase (env : Env) (payload : Dict) : List Call × Except UErr Dict :=
  if dictContains payload "src_vlan" || dictContains payload "dst_vlan" then
    let calls := [getNetworksCall]
    if dictContains payload "src_vlan" then
      let v := dictGetD payload "src_vlan" .null
      let p := dictPop payload "src_vlan"
      match findNetId env.networks v with
      | .error e => (calls, .error e)
      | .ok o =>
          if !truthyOpt o then
            (calls, .error (.baseError ("Source VLAN " ++ pyStr v ++ " not found")))
          else
            (calls, cfrDstVlan env.networks
              (dictSet (dictSet p "src_networkconf_id" (o.getD .null))
                "src_networkconf_type" (.str "NETv4")))
    else (calls, cfrDstVlan env.networks payload)
  else ([], .ok payload)

/-- src_ip/dst_ip renames of create_firewall_rule (lines 989-992). -/
def cfrIpRenames (payload : Dict) : Dict :=
  let p :=
    if dictContains payload "dst_ip" then
      dictSet (dictPop payload "dst_ip") "dst_address" (dictGetD payload "dst_ip" .null)
    else payload
  if dictContains p "src_ip" then
    dictSet (dictPop p "src_ip") "src_address" (dictGetD p "src_ip" .null)
  else p

/-- `next((g["_id"] for g in groups if g.get("name") == group_name), None)`. -/
def findGroupId (groups : List Dict) (gname : JVal) : Except UErr (Option JVal) :=
  match groups.find? (fun g => JVal.beq (dictGetD g "name" .null) gname) with
  | none => .ok none
  | some g =>
      match dictGet? g "_id" with
      | none => .error (.pyExc "KeyError")
      | some i => .ok (some i)

/-- dst_group half of create_firewall_rule's group resolution (lines 1005-1010). -/
def cfrDstGroup (groups : List Dict) (payload : Dict) : Except UErr Dict :=
  if dictContains payload "dst_group" then
    let gname := dictGetD payload "dst_group" .null
    let p := dictPop payload "dst_group"
    match findGroupId groups gname with
    | .error e => .error e
    | .ok o =>
        if !truthyOpt o then
          .error (.baseError ("Destination Group \x27" ++ pyStr gname ++ "\x27 not found"))
        else .ok (dictSet p "dst_firewallgroup_ids" (.arr [o.getD .null]))
  else .ok payload

/-- Firewall-group resolution phase of create_firewall_rule (lines 995-1010). -/
def cfrGroupPhase (env : Env) (payload : Dict) : List Call × Except UErr Dict :=
  if dictContains payload "src_group" || dictContains payload "dst_group" then
    let calls := [getFirewallGroupsCall]
    if dictContains payload "src_group" then
      let gname := dictGetD payload "src_group" .null
      let p := dictPop payload "src_group"
      match findGroupId env.firewallGroups gname with
      | .error e => (calls, .error e)
      | .ok o =>
          if !truthyOpt o then
            (calls, .error (.baseError ("Source Group \x27" ++ pyStr gname ++ "\x27 not found")))
          else
            (calls, cfrDstGroup env.firewallGroups
              (dictSet p "src_firewallgroup_ids" (.arr [o.getD .null])))
    else (calls, cfrDstGroup env.firewallGroups payload)
  else ([], .ok payload)

/-- Default fields injected into a firewall-rule payload (lines 1017-1026). -/
def cfrDefaults : List (String × JVal) :=
  [("enabled", .bool true), ("protocol", .str "all"), ("logging", .bool false),
   ("setting_preference", .str "auto"), ("state_established", .bool false),
   ("state_invalid", .bool false), ("state_new", .bool false),
   ("state_related", .bool false)]

/-- `for k, v in defaults.items(): if k not in payload: payload[k] = v`. -/
def applyDefaults (payload : Dict) (ds : List (String × JVal)) : Dict :=
  ds.foldl (fun p kv => if !(dictContains p kv.1) then dictSet p kv.1 kv.2 else p) payload

/-- The state→enabled key mapping of create_firewall_rule (lines 946-949). -/
def cfrStateMap (payload : Dict) : Dict :=
  if dictContains payload "state" then
    dictPop
      (if JVal.beq (dictGetD payload "state" .null) (.str "enabled") then
        dictSet payload "enabled" (.bool true)
      else payload) "state"
  else payload

/-- Payload assembly of create_firewall_rule (lines 944-1029): state mapping,
VLAN resolution, IP renames, group resolution, networkconf types, defaults.
Returns the GET calls it issued and the assembled payload or the raised error. -/
def cfrAssemble (env : Env) (ruleData : Dict) : List Call × Except UErr Dict :=
  let payload := cfrStateMap ruleData
  match cfrVlanPhase env payload with
  | (calls, .error e) => (calls, .error e)
  | (calls, .ok p1) =>
      let p2 := cfrIpRenames p1
      match cfrGroupPhase env p2 with
      | (gcalls, .error e) => (calls ++ gcalls, .error e)
      | (gcalls, .ok p3) =>
          let p4 := dictSet p3 "src_networkconf_type"
            (dictGetD p3 "src_networkconf_type" (.str "NETv4"))
          let p5 := dictSet p4 "dst_networkconf_type"
            (dictGetD p4 "dst_networkconf_type" (.str "NETv4"))
          (calls ++ gcalls, .ok (applyDefaults p5 cfrDefaults))

/-- UniFiClient.create_firewall_rule (lines 940-1053): assemble the payload,
fetch the current rules, skip when a rule of the same name exists, honour
check_mode, otherwise POST. -/
def create_firewall_rule (env : Env) (ruleData : Dict) (checkMode : Bool) :
    List Call × Except UErr OpRes :=
  let name := dictGetD ruleData "name" .null
  match cfrAssemble env ruleData with
  | (calls, .error e) => (calls, .error e)
  | (calls, .ok payload) =>
      let calls := calls ++ [getFirewallRulesCall]
      match env.firewallRules.find? (fun r => JVal.beq (dictGetD r "name" .null) name) with
      | some rule =>
          (calls, .ok ⟨false, some (.obj rule), some "Firewall rule already exists"⟩)
      | none =>
          if checkMode then
            (calls, .ok ⟨true, none, some "Firewall rule would be created (check_mode)"⟩)
          else
            let ep := "api/s/default/rest/firewallrule"
            (calls ++ [⟨ep, "POST", some (.obj payload)⟩],
             .ok ⟨true, some (env.mutResp ep "POST"), none⟩)

/-- UniFiClient.create_firewall_group (lines 1076-1101): fetch groups, skip on
a name match, else rename members, default group_type, POST. -/
def create_firewall_group (env : Env) (groupData : Dict) :
    List Call × Except UErr OpRes :=
  let name := dictGetD groupData "name" .null
  let calls := [getFirewallGroupsCall]
  match env.firewallGroups.find? (fun g => JVal.beq (dictGetD g "name" .null) name) with
  | some group =>
      (calls, .ok ⟨false, some (.obj group), some "Firewall group already exists"⟩)
  | none =>
      let payload := groupData
      let payload :=
        if dictContains payload "members" then
          dictSet (dictPop payload "members") "group_members" (dictGetD payload "members" .null)
        else payload
      let payload :=
        if !(dictContains payload "group_type") then
          dictSet payload "group_type" (dictGetD payload "type" (.str "address-group"))
        else payload
      let ep := "api/s/default/rest/firewallgroup"
      (calls ++ [⟨ep, "POST", some (.obj payload)⟩],
       .ok ⟨true, some (env.mutResp ep "POST"), none⟩)

/-- The VLAN half of create_network's match condition (lines 1450-1459):
integer comparison when the record carries a vlan, else the VLAN-1/Default
alias. -/
def netVlanMatch (vlanId : JVal) (net : Dict) : Bool :=
  if vlanId.isNull then false
  else
    let netVlan := dictGetD net "vlan" .null
    if !netVlan.isNull then
      match pyInt netVlan, pyInt vlanId with
      | some a, some b => a == b
      | _, _ => false
    else
      pyStr vlanId == "1" && JVal.beq (dictGetD net "name" .null) (.str "Default")

/-- "True"/"False" as Python formats booleans into f-strings. -/
def pyBoolStr (b : Bool) : String := if b then "True" else "False"

/-- UniFiClient.create_network (lines 1417-1493): key renames and defaults,
check_mode early return, then match by name or VLAN; an exact subnet match is
an idempotent skip, a subnet mismatch triggers a PUT carrying the caller's
payload, no match triggers a POST. -/
def create_network (env : Env) (networkData : Dict) (checkMode : Bool) :
    List Call × Except UErr OpRes :=
  let name := dictGetD networkData "name" .null
  let vlanId :=
    if JVal.truthy (dictGetD networkData "vlan_id" .null) then dictGetD networkData "vlan_id" .null
    else dictGetD networkData "vlan" .null
  let payload := networkData
  let payload :=
    if dictContains payload "vlan_id" then
      dictSet (dictPop payload "vlan_id") "vlan" (dictGetD payload "vlan_id" .null)
    else payload
  let payload :=
    if dictContains payload "subnet" then
      dictSet (dictPop payload "subnet") "ip_subnet" (dictGetD payload "subnet" .null)
    else payload
  let payload :=
    if dictContains payload "vlan" then dictSet payload "vlan_enabled" (.bool true)
    else payload
  let payload :=
    if JVal.beq (dictGetD payload "purpose" .null) (.str "corporate") then
      let p :=
        if !(dictContains payload "dhcpd_enabled") then
          dictSet payload "dhcpd_enabled" (.bool true)
        else payload
      if !(dictContains p "networkgroup") then dictSet p "networkgroup" (.str "LAN") else p
    else payload
  if checkMode then
    ([], .ok ⟨true, none, some ("Network " ++ pyStr name ++ " would be created (check_mode)")⟩)
  else
    let calls := [getNetworksCall]
    match env.networks.find? (fun net =>
        JVal.beq (dictGetD net "name" .null) name || netVlanMatch vlanId net) with
    | some net =>
        let matchName := JVal.beq (dictGetD net "name" .null) name
        let matchVlan := netVlanMatch vlanId net
        if JVal.beq (dictGetD net "ip_subnet" .null) (dictGetD payload "ip_subnet" .null) then
          (calls, .ok ⟨false, some (.obj net),
            some ("Network already exists and matches (Match Name: " ++ pyBoolStr matchName ++
              ", Match VLAN: " ++ pyBoolStr matchVlan ++ ", Match Subnet: True)")⟩)
        else
          match dictGet? net "_id" with
          | none => (calls, .error (.pyExc "KeyError"))
          | some nid =>
              let ep := "api/s/default/rest/networkconf/" ++ pyStr nid
              (calls ++ [⟨ep, "PUT", some (.obj payload)⟩],
               .ok ⟨true, some (env.mutResp ep "PUT"), some "Network updated (subnet mismatch)"⟩)
    | none =>
        let ep := "api/s/default/rest/networkconf"
        (calls ++ [⟨ep, "POST", some (.obj payload)⟩],
         .ok ⟨true, some (env.mutResp ep "POST"), none⟩)

/-- UniFiClient.create_target_object (lines 1309-1324): check_mode returns
immediately (no fetch, no idempotency detection), otherwise POST directly. -/
def create_target_object (env : Env) (objData : Dict) (checkMode : Bool) :
    List Call × Except UErr OpRes :=
  let name := dictGetD objData "name" .null
  if checkMode then
    ([], .ok ⟨true, none, some ("Object \x27" ++ pyStr name ++ "\x27 would be managed")⟩)
  else
    let ep := "v2/api/site/default/object-oriented-network-config"
    ([⟨ep, "POST", some (.obj objData)⟩], .ok ⟨true, some (env.mutResp ep "POST"), none⟩)

/-- `next((n["_id"] for n in networks if str(n.get("vlan")) == str(vlan_id)),
None)` in create_wlan_config (line 1512): strict vlan-field comparison, with
no Default-network alias. -/
def findNetIdStrict (networks : List Dict) (vlanId : JVal) : Except UErr (Option JVal) :=
  match networks.find? (fun n => pyStr (dictGetD n "vlan" .null) == pyStr vlanId) with
  | none => .ok none
  | some n =>
      match dictGet? n "_id" with
      | none => .error (.pyExc "KeyError")
      | some i => .ok (some i)

/-- The ap-group discovery block of create_wlan_config (lines 1541-1568):
try the v2 apgroups endpoint, fall back to the legacy one, pick the
"All APs" group or the first group. Returns the calls issued and the payload. -/
def cwcApGroups (env : Env) (payload : Dict) : List Call × Except UErr Dict :=
  if !(dictContains payload "ap_group_ids") then
    let payload := dictSet payload "ap_group_mode" (.str "all")
    let v2call : Call := ⟨"v2/api/site/default/apgroups", "GET", none⟩
    let legacyCall : Call := ⟨"api/s/default/rest/apgroup", "GET", none⟩
    let (calls, groups) :=
      match env.apgroupsV2 with
      | .ok gs => ([v2call], gs)
      | .error _ =>
          match env.apgroupsLegacy with
          | .ok gs2 => ([v2call, legacyCall], gs2)
          | .error _ => ([v2call, legacyCall], [])
    match groups.find? (fun g => JVal.beq (dictGetD g "name" .null) (.str "All APs")) with
    | some g =>
        (match dictGet? g "_id" with
         | none => (calls, .error (.pyExc "KeyError"))
         | some i =>
             if JVal.truthy i then
               (calls, .ok (dictSet payload "ap_group_ids" (.arr [i])))
             else
               let dg := dictGetD (groups.headD []) "_id" .null
               if groups.isEmpty then (calls, .ok payload)
               else if JVal.truthy dg then
                 (calls, .ok (dictSet payload "ap_group_ids" (.arr [dg])))
               else (calls, .ok payload))
    | none =>
        if groups.isEmpty then (calls, .ok payload)
        else
          let dg := dictGetD (groups.headD []) "_id" .null
          if JVal.truthy dg then (calls, .ok (dictSet payload "ap_group_ids" (.arr [dg])))
          else (calls, .ok payload)
  else ([], .ok payload)

/-- UniFiClient.create_wlan_config (lines 1502-1585): VLAN linking (strict,
raising UniFiAPIError when the tag is not found), passphrase and flag renames,
security defaults, ap-group discovery, then idempotency check by SSID name,
check_mode, POST. -/
def create_wlan_config (env : Env) (wlanData : Dict) (checkMode : Bool) :
    List Call × Except UErr OpRes :=
  let name := dictGetD wlanData "name" .null
  let vlanStep : List Call × Except UErr Dict :=
    if dictContains wlanData "vlan_id" then
      let vlanId := dictGetD wlanData "vlan_id" .null
      let p := dictPop wlanData "vlan_id"
      let calls := [getNetworksCall]
      match findNetIdStrict env.networks vlanId with
      | .error e => (calls, .error e)
      | .ok o =>
          if truthyOpt o then (calls, .ok (dictSet p "networkconf_id" (o.getD .null)))
          else
            (calls, .error (.apiError ("VLAN " ++ pyStr vlanId ++
              " not found; cannot link SSID " ++ pyStr name)))
    else ([], .ok wlanData)
  match vlanStep with
  | (calls, .error e) => (calls, .error e)
  | (calls, .ok p0) =>
      let p1 :=
        if !(dictContains p0 "x_passphrase") && dictContains p0 "passphrase" then
          dictSet (dictPop p0 "passphrase") "x_passphrase" (dictGetD p0 "passphrase" .null)
        else p0
      let p2 :=
        if dictContains p1 "multicast_enhance" then
          dictSet (dictPop p1 "multicast_enhance") "mcastenhance_enabled"
            (dictGetD p1 "multicast_enhance" .null)
        else p1
      let p3 :=
        if dictContains p2 "guest_policy" then
          dictSet (dictPop p2 "guest_policy") "is_guest"
            (.bool (JVal.beq (dictGetD p2 "guest_policy" .null) (.str "enabled")))
        else p2
      let p4 :=
        if dictContains p3 "device_isolation" then
          dictSet (dictPop p3 "device_isolation") "l2_isolation"
            (dictGetD p3 "device_isolation" .null)
        else p3
      let p5 :=
        if JVal.beq (dictGetD p4 "security" .null) (.str "wpapsk") then
          applyDefaults p4 [("wpa_mode", .str "wpa2"), ("pmf_mode", .str "optional"),
                            ("wpa3_support", .bool true), ("wpa3_transition", .bool true)]
        else p4
      let p6 := applyDefaults p5 [("wlan_bands", .arr [.str "2g", .str "5g"]),
                                  ("dtim_mode", .str "default"),
                                  ("setting_preference", .str "manual")]
      match cwcApGroups env p6 with
      | (gcalls, .error e) => (calls ++ gcalls, .error e)
      | (gcalls, .ok p7) =>
          let calls := calls ++ gcalls ++ [getWlanConfigsCall]
          match env.wlanConfigs.find? (fun w => JVal.beq (dictGetD w "name" .null) name) with
          | some wlan => (calls, .ok ⟨false, some (.obj wlan), some "SSID already exists"⟩)
          | none =>
              if checkMode then
                (calls, .ok ⟨true, none,
                  some ("SSID " ++ pyStr name ++ " would be created (check_mode)")⟩)
              else
                let ep := "api/s/default/rest/wlanconf"
                (calls ++ [⟨ep, "POST", some (.obj p7)⟩],
                 .ok ⟨true, some (env.mutResp ep "POST"), none⟩)

/-- UniFiClient.update_setting (lines 1387-1415): fetch the setting object by
key, merge the caller's payload over it, skip when the merge changes nothing,
else PUT the merged object. -/
def update_setting (env : Env) (key : String) (payload : Dict) :
    List Call × Except UErr OpRes :=
  let calls := [⟨"api/s/default/rest/setting/" ++ key, "GET", none⟩]
  match env.settings key with
  | [] => (calls, .error (.apiError ("Setting key \x27" ++ key ++ "\x27 not found; cannot update")))
  | currentObj :: _ =>
      match dictGet? currentObj "_id" with
      | none => (calls, .error (.pyExc "KeyError"))
      | some settingId =>
          let data := dictUpdate currentObj payload
          if JVal.beq (.obj data) (.obj currentObj) then
            (calls, .ok ⟨false, none, some "Setting already matches target configuration"⟩)
          else
            let ep := "api/s/default/rest/setting/" ++ key ++ "/" ++ pyStr settingId
            (calls ++ [⟨ep, "PUT", some (.obj data)⟩],
             .ok ⟨true, some (env.mutResp ep "PUT"), none⟩)

/-- UniFiClient.delete_zone (lines 1151-1164): fetch zones, not-found returns
unchanged, a zone with a truthy default_zone flag raises UniFiError with no
DELETE, otherwise DELETE by the zone's _id. -/
def delete_zone (env : Env) (zoneName : String) : List Call × Except UErr OpRes :=
  let calls := [getZonesCall]
  match env.zones.find? (fun z => JVal.beq (dictGetD z "name" .null) (.str zoneName)) with
  | none => (calls, .ok ⟨false, none, some ("Zone \x27" ++ zoneName ++ "\x27 not found")⟩)
  | some zone =>
      if JVal.truthy (dictGetD zone "default_zone" .null) then
        (calls, .error (.baseError ("Cannot delete default zone \x27" ++ zoneName ++ "\x27")))
      else
        match dictGet? zone "_id" with
        | none => (calls, .error (.pyExc "KeyError"))
        | some zid =>
            let ep := "v2/api/site/default/firewall/zone/" ++ pyStr zid
            (calls ++ [⟨ep, "DELETE", none⟩],
             .ok ⟨true, some (env.mutResp ep "DELETE"), none⟩)

theorem lookupF_append {k : String} (a b : List (String × JVal)) :
    lookupF k (a ++ b) = ((lookupF k a).rec (lookupF k b) (fun v => some v)) := by
  induction a with
  | nil => simp [lookupF]
  | cons kv rest ih =>
      obtain ⟨k1, w⟩ := kv
      simp only [List.cons_append, lookupF]
      split <;> simp [ih]

theorem lookupF_replace_self {k : String} (v : JVal) (d : List (String × JVal)) :
    lookupF k (dictReplace d k v) = (lookupF k d).map (fun _ => v) := by
  induction d with
  | nil => simp [dictReplace, lookupF]
  | cons kv rest ih =>
      obtain ⟨k1, w⟩ := kv
      by_cases h1 : k1 = k
      · subst h1
        simp [dictReplace, lookupF]
      · simp [dictReplace, lookupF, h1, ih]

theorem lookupF_replace_ne {k k' : String} (v : JVal) (d : List (String × JVal))
    (h : k ≠ k') : lookupF k' (dictReplace d k v) = lookupF k' d := by
  induction d with
  | nil => simp [dictReplace]
  | cons kv rest ih =>
      obtain ⟨k1, w⟩ := kv
      by_cases h1 : k1 = k
      · subst h1
        simp [dictReplace, lookupF, h, ih]
      · simp only [dictReplace]
        have h1' : ¬ (k1 == k) := by simpa using h1
        simp only [h1', Bool.false_eq_true, if_neg, if_false]
        by_cases h2 : k1 = k'
        · subst h2
          simp [lookupF]
        · simp [lookupF, h2, ih]

theorem dictGet?_set_self (d : Dict) (k : String) (v : JVal) :
    dictGet? (dictSet d k v) k = some v := by
  unfold dictSet
  split
  · rename_i hc
    unfold dictGet? at *
    rw [lookupF_replace_self]
    unfold dictContains dictGet? at hc
    cases h : lookupF k d with
    | none => rw [h] at hc; simp at hc
    | some w => simp [h]
  · unfold dictGet?
    rw [lookupF_append]
    rename_i hc
    unfold dictContains dictGet? at hc
    cases h : lookupF k d with
    | none => simp [h, lookupF]
    | some w => rw [h] at hc; simp at hc

theorem dictGet?_set_ne (d : Dict) (k k' : String) (v : JVal) (h : k ≠ k') :
    dictGet? (dictSet d k v) k' = dictGet? d k' := by
  unfold dictSet
  split
  · unfold dictGet?
    rw [lookupF_replace_ne _ _ h]
  · unfold dictGet?
    rw [lookupF_append]
    cases hl : lookupF k' d with
    | none =>
        have h' : ¬ (k == k') := by simpa using h
        simp [lookupF, h']
    | some w => simp

theorem dictGet?_pop_ne (d : Dict) (k k' : String) (h : k ≠ k') :
    dictGet? (dictPop d k) k' = dictGet? d k' := by
  unfold dictPop dictGet?
  induction d with
  | nil => simp [lookupF]
  | cons kv rest ih =>
      obtain ⟨k1, w⟩ := kv
      by_cases h1 : k1 == k
      · have hk : k1 = k := by simpa using h1
        subst hk
        have : ¬ k1 == k' := by simpa using h
        simp [lookupF, h1, this, ih]
      · simp only [List.filter_cons]
        simp only [h1, Bool.not_false, if_pos]
        simp only [lookupF]
        split <;> simp [ih]

theorem dictGet?_pop_self (d : Dict) (k : String) :
    dictGet? (dictPop d k) k = none := by
  unfold dictPop dictGet?
  induction d with
  | nil => simp [lookupF]
  | cons kv rest ih =>
      obtain ⟨k1, w⟩ := kv
      by_cases h1 : k1 == k
      · simp [List.filter_cons, h1, ih]
      · simp [List.filter_cons, h1, lookupF, ih]

theorem lookupF_eq_none_of_not_mem_keys {k : String} {p : List (String × JVal)}
    (h : k ∉ p.map Prod.fst) : lookupF k p = none := by
  induction p with
  | nil => simp [lookupF]
  | cons kv rest ih =>
      obtain ⟨k1, w⟩ := kv
      simp only [List.map_cons, List.mem_cons] at h
      push_neg at h
      have h1 : ¬ k1 == k := by simpa using (Ne.symm h.1)
      simp [lookupF, h1, ih h.2]

theorem dictGet?_update_absent (d p : Dict) (k : String) (h : dictGet? p k = none) :
    dictGet? (dictUpdate d p) k = dictGet? d k := by
  induction p generalizing d with
  | nil => simp [dictUpdate]
  | cons kv rest ih =>
      obtain ⟨k1, w⟩ := kv
      unfold dictGet? lookupF at h
      by_cases h1 : k1 == k
      · simp [h1] at h
      · simp only [h1, if_neg, Bool.false_eq_true] at h
        have hne : k1 ≠ k := by simpa using h1
        show dictGet? (dictUpdate (dictSet d k1 w) rest) k = dictGet? d k
        rw [ih (dictSet d k1 w) h, dictGet?_set_ne _ _ _ _ hne]

theorem dictGet?_update_present (d p : Dict) (k : String) (v : JVal)
    (hn : (p.map Prod.fst).Nodup) (h : dictGet? p k = some v) :
    dictGet? (dictUpdate d p) k = some v := by
  induction p generalizing d with
  | nil => simp [dictGet?, lookupF] at h
  | cons kv rest ih =>
      obtain ⟨k1, w⟩ := kv
      simp only [List.map_cons, List.nodup_cons] at hn
      unfold dictGet? lookupF at h
      by_cases h1 : k1 == k
      · have hk : k1 = k := by simpa using h1
        subst hk
        simp only [h1, if_pos] at h
        have hv : w = v := by injection h
        subst hv
        show dictGet? (dictUpdate (dictSet d k1 w) rest) k1 = some w
        have hrest : dictGet? rest k1 = none := lookupF_eq_none_of_not_mem_keys hn.1
        rw [dictGet?_update_absent _ _ _ hrest, dictGet?_set_self]
      · simp only [h1, if_neg, Bool.false_eq_true] at h
        show dictGet? (dictUpdate (dictSet d k1 w) rest) k = some v
        exact ih (dictSet d k1 w) hn.2 h

theorem fieldsMatch_lookup {a b : List (String × JVal)} {k : String} {v : JVal}
    (hs : JVal.fieldsMatch a b = true) (hl : lookupF k a = some v) :
    ∃ w, lookupF k b = some w ∧ JVal.beq v w = true := by
  induction a with
  | nil => simp [lookupF] at hl
  | cons kv rest ih =>
      obtain ⟨k1, v1⟩ := kv
      rw [JVal.fieldsMatch] at hs
      simp only [Bool.and_eq_true] at hs
      unfold lookupF at hl
      by_cases h1 : k1 == k
      · have hk : k1 = k := by simpa using h1
        subst hk
        simp only [h1, if_pos] at hl
        cases hl
        cases hb : lookupF k1 b with
        | none => rw [hb] at hs; simp at hs
        | some w =>
            rw [hb] at hs
            exact ⟨w, rfl, hs.1⟩
      · simp only [h1, if_neg, Bool.false_eq_true] at hl
        exact ih hs.2 hl

theorem beq_obj_false_of_lookup_diff {a b : List (String × JVal)} {k : String} {v : JVal}
    (hl : lookupF k a = some v) (hd : optJBeq (some v) (lookupF k b) = false) :
    JVal.beq (.obj a) (.obj b) = false := by
  by_contra hc
  have ht : JVal.beq (.obj a) (.obj b) = true := by
    cases h : JVal.beq (.obj a) (.obj b) with
    | true => rfl
    | false => exact absurd h hc
  rw [JVal.beq] at ht
  simp only [Bool.and_eq_true] at ht
  obtain ⟨w, hw, hbeq⟩ := fieldsMatch_lookup ht.2 hl
  rw [hw] at hd
  rw [show optJBeq (some v) (some w) = JVal.beq v w from rfl, hbeq] at hd
  exact absurd hd (by simp)

theorem reloginOut_ne_cacheHit (st : AuthSt) : reloginOut st ≠ FreshOut.cacheHit := by
  unfold reloginOut
  split <;> simp

theorem truthy_num (n : Int) : JVal.truthy (.num n) = (n != 0) := rfl

theorem tokenFresh_num (tok : JVal) (e now : Int) :
    tokenFresh tok (.num e) now =
      .ok (JVal.truthy tok && (e != 0) && decide (now < e - 60)) := by
  unfold tokenFresh
  rw [truthy_num]
  by_cases ht : JVal.truthy tok = true
  · by_cases he : e = 0
    · subst he
      simp [ht]
    · simp [ht, he]
  · have ht' : JVal.truthy tok = false := by
      cases h : JVal.truthy tok
      · rfl
      · exact absurd h ht
    simp [ht']

/-- C4: in any non-api_key mode, ensure_jwt_fresh treats a token as valid
exactly when now < expiry − 60 (strictly), and it applies that same test
whether the token is already held in memory or is loaded from the on-disk
cache file; expiry = now+61 is a cache hit, expiry = now+59 triggers
re-login. -/
theorem C4_jwt_freshness_boundary (mode host : String) (tok csrf : JVal)
    (cache : Option Dict) (cd : Dict) (now e : Int)
    (h0 : 0 ≤ now) (hmode : mode ≠ "api_key") :
    (JVal.truthy tok = true →
      (ensure_jwt_fresh ⟨mode, host, tok, .num e, csrf⟩ cache now =
        .ok (.cacheHit, ⟨mode, host, tok, .num e, csrf⟩) ↔ now < e - 60)) ∧
    (JVal.truthy tok = false →
      JVal.beq (dictGetD cd "host" .null) (.str host) = true →
      JVal.truthy (dictGetD cd "jwt" .null) = true →
      dictGetD cd "exp" .null = .num e →
      (ensure_jwt_fresh ⟨mode, host, tok, .null, csrf⟩ (some cd) now =
        .ok (.cacheHit, ⟨mode, host, dictGetD cd "jwt" .null, dictGetD cd "exp" .null,
                          dictGetD cd "csrf" .null⟩) ↔ now < e - 60)) := by
  have hm : (mode == "api_key") = false := by
    simpa using hmode
  constructor
  · intro htok
    have hload : ensure_jwt_fresh ⟨mode, host, tok, .num e, csrf⟩ cache now =
        (match tokenFresh tok (.num e) now with
         | .error err => .error err
         | .ok true => .ok (.cacheHit, ⟨mode, host, tok, .num e, csrf⟩)
         | .ok false => .ok (reloginOut ⟨mode, host, tok, .num e, csrf⟩,
             ⟨mode, host, tok, .num e, csrf⟩)) := by
      unfold ensure_jwt_fresh
      simp only [hm, Bool.false_eq_true, if_false, htok, Bool.not_true]
    rw [hload, tokenFresh_num, htok]
    by_cases he : e = 0
    · subst he
      simp only [bne_self_eq_false, Bool.true_and, Bool.false_and]
      exact iff_of_false (by simp [reloginOut_ne_cacheHit]) (by omega)
    · have hbe : (e != 0) = true := by
        simpa using he
      rw [hbe]
      by_cases hlt : now < e - 60
      · have hb : decide (now < e - 60) = true := by
          simpa using hlt
        rw [hb]
        exact iff_of_true rfl hlt
      · have hb : decide (now < e - 60) = false := by
          simpa using hlt
        rw [hb]
        exact iff_of_false (by simp [reloginOut_ne_cacheHit]) hlt
  · intro htok hhost hjwt hexp
    have hload : ensure_jwt_fresh ⟨mode, host, tok, .null, csrf⟩ (some cd) now =
        (match tokenFresh (dictGetD cd "jwt" .null) (dictGetD cd "exp" .null) now with
         | .error err => .error err
         | .ok true => .ok (.cacheHit, ⟨mode, host, dictGetD cd "jwt" .null,
             dictGetD cd "exp" .null, dictGetD cd "csrf" .null⟩)
         | .ok false => .ok (reloginOut ⟨mode, host, dictGetD cd "jwt" .null,
             dictGetD cd "exp" .null, dictGetD cd "csrf" .null⟩,
             ⟨mode, host, dictGetD cd "jwt" .null, dictGetD cd "exp" .null,
               dictGetD cd "csrf" .null⟩)) := by
      unfold ensure_jwt_fresh
      simp only [hm, Bool.false_eq_true, if_false, htok, Bool.not_false, if_true, hhost]
    rw [hload, hexp, tokenFresh_num, hjwt]
    by_cases he : e = 0
    · subst he
      simp only [bne_self_eq_false, Bool.true_and, Bool.false_and]
      exact iff_of_false (by simp [reloginOut_ne_cacheHit]) (by omega)
    · have hbe : (e != 0) = true := by
        simpa using he
      rw [hbe]
      by_cases hlt : now < e - 60
      · have hb : decide (now < e - 60) = true := by
          simpa using hlt
        rw [hb]
        exact iff_of_true rfl hlt
      · have hb : decide (now < e - 60) = false := by
          simpa using hlt
        rw [hb]
        exact iff_of_false (by simp [reloginOut_ne_cacheHit]) hlt

/-- Witness for C4: at now = 1000, a held token with exp 1061 is a cache hit
and one with exp 1059 re-logs in; the cache-file path gives the cache hit on
the same fresh expiry. -/
theorem C4_jwt_freshness_boundary_witness :
    (ensure_jwt_fresh ⟨"jwt", "h", .str "tok", .num 1061, .null⟩ none 1000 =
      .ok (.cacheHit, ⟨"jwt", "h", .str "tok", .num 1061, .null⟩)) ∧
    (ensure_jwt_fresh ⟨"jwt", "h", .str "tok", .num 1059, .null⟩ none 1000 ≠
      .ok (.cacheHit, ⟨"jwt", "h", .str "tok", .num 1059, .null⟩)) ∧
    (ensure_jwt_fresh ⟨"jwt", "h", .null, .null, .null⟩
      (some [("host", .str "h"), ("jwt", .str "tok"), ("exp", .num 1061), ("csrf", .str "c")])
      1000 =
      .ok (.cacheHit, ⟨"jwt", "h", .str "tok", .num 1061, .str "c"⟩)) := by
  refine ⟨?_, ?_, ?_⟩
  · exact ((C4_jwt_freshness_boundary "jwt" "h" (.str "tok") .null none [] 1000 1061
      (by norm_num) (by decide)).1 (by decide)).mpr (by norm_num)
  · intro h
    have := ((C4_jwt_freshness_boundary "jwt" "h" (.str "tok") .null none [] 1000 1059
      (by norm_num) (by decide)).1 (by decide)).mp h
    omega
  · exact ((C4_jwt_freshness_boundary "jwt" "h" .null .null none
      [("host", .str "h"), ("jwt", .str "tok"), ("exp", .num 1061), ("csrf", .str "c")]
      1000 1061 (by norm_num) (by decide)).2 (by decide) (by decide) (by decide) rfl).mpr
      (by norm_num)

/-- C5: api_call classifies live responses: 401 is always AuthError; any other
non-2xx status is ApiError with the nested meta.msg, or the v2 error.message
when an "error" envelope is present, or the raw body text when the body does
not parse; an empty 2xx body becomes the canonical empty success envelope;
and a 2xx body whose envelope has meta.rc == "error" raises ApiError with the
embedded message. -/
theorem C5_response_classification :
    (∀ (endpoint : String) (body : RespBody) (reason : String),
       apiCallClassify endpoint (.httpError 401 body reason) =
         .error (.authError ("Unauthorized (401) on " ++ endpoint))) ∧
    (∀ (endpoint : String) (code : Nat) (fs ms : Dict) (m : JVal) (raw reason : String),
       code ≠ 401 → lookupF "meta" fs = some (.obj ms) → lookupF "msg" ms = some m →
       lookupF "error" fs = none →
       apiCallClassify endpoint (.httpError code (.parsed (.obj fs) raw) reason) =
         .error (.apiError ("HTTP " ++ toString code ++ " on " ++ endpoint ++ ": " ++ pyStr m))) ∧
    (∀ (endpoint : String) (code : Nat) (fs es ms : Dict) (m : JVal) (raw reason : String),
       code ≠ 401 → lookupF "meta" fs = some (.obj ms) →
       lookupF "error" fs = some (.obj es) → lookupF "message" es = some m →
       apiCallClassify endpoint (.httpError code (.parsed (.obj fs) raw) reason) =
         .error (.apiError ("HTTP " ++ toString code ++ " on " ++ endpoint ++ ": " ++ pyStr m))) ∧
    (∀ (endpoint : String) (code : Nat) (raw emsg reason : String),
       code ≠ 401 → raw ≠ "" →
       apiCallClassify endpoint (.httpError code (.invalid raw emsg) reason) =
         .error (.apiError ("HTTP " ++ toString code ++ " on " ++ endpoint ++ ": " ++ raw))) ∧
    (∀ endpoint : String, apiCallClassify endpoint (.success .empty) = .ok emptyEnvelope) ∧
    (∀ (endpoint : String) (fs ms : Dict) (raw : String),
       lookupF "meta" fs = some (.obj ms) →
       JVal.beq (dictGetD ms "rc" .null) (.str "error") = true →
       apiCallClassify endpoint (.success (.parsed (.obj fs) raw)) =
         .error (.apiError (endpoint ++ ": " ++
           pyStr (dictGetD ms "msg" (.str "Unknown error"))))) := by
  refine ⟨?_, ?_, ?_, ?_, ?_, ?_⟩
  · intro endpoint body reason
    rfl
  · intro endpoint code fs ms m raw reason hcode hmeta hmsg herr
    have hc : (code == 401) = false := by
      simpa using hcode
    unfold apiCallClassify httpErrMsg
    simp only [hc, Bool.false_eq_true, if_false, hmeta, hmsg, herr]
    simp [dictGetD, dictGet?, hmsg]
  · intro endpoint code fs es ms m raw reason hcode hmeta herr hmsg
    have hc : (code == 401) = false := by
      simpa using hcode
    unfold apiCallClassify httpErrMsg
    simp only [hc, Bool.false_eq_true, if_false, hmeta, herr]
    simp [dictGetD, dictGet?, hmsg]
  · intro endpoint code raw emsg reason hcode hraw
    have hc : (code == 401) = false := by
      simpa using hcode
    have hr : (raw == "") = false := by
      simpa using hraw
    unfold apiCallClassify
    simp only [hc, Bool.false_eq_true, if_false, hr]
    rfl
  · intro endpoint
    rfl
  · intro endpoint fs ms raw hmeta hrc
    unfold apiCallClassify
    simp only [hmeta, hrc, if_true]

/-- Witness for C5: each classification case evaluated at a concrete response. -/
theorem C5_response_classification_witness :
    (apiCallClassify "ep" (.httpError 401 .empty "r") =
      .error (.authError "Unauthorized (401) on ep")) ∧
    (apiCallClassify "ep"
        (.httpError 500 (.parsed (.obj [("meta", .obj [("msg", .str "boom")])]) "raw") "r") =
      .error (.apiError "HTTP 500 on ep: boom")) ∧
    (apiCallClassify "ep"
        (.httpError 500 (.parsed (.obj [("meta", .obj []),
          ("error", .obj [("message", .str "v2boom")])]) "raw") "r") =
      .error (.apiError "HTTP 500 on ep: v2boom")) ∧
    (apiCallClassify "ep" (.httpError 500 (.invalid "nonsense" "e") "r") =
      .error (.apiError "HTTP 500 on ep: nonsense")) ∧
    (apiCallClassify "ep" (.success .empty) = .ok emptyEnvelope) ∧
    (apiCallClassify "ep"
        (.success (.parsed (.obj [("meta", .obj [("rc", .str "error"), ("msg", .str "bad")])]) "raw")) =
      .error (.apiError "ep: bad")) := by
  obtain ⟨h1, h2, h3, h4, h5, h6⟩ := C5_response_classification
  refine ⟨h1 "ep" .empty "r", ?_, ?_, ?_, h5 "ep", ?_⟩
  · exact h2 "ep" 500 [("meta", .obj [("msg", .str "boom")])] [("msg", .str "boom")]
      (.str "boom") "raw" "r" (by decide) rfl rfl rfl
  · exact h3 "ep" 500 [("meta", .obj []), ("error", .obj [("message", .str "v2boom")])]
      [("message", .str "v2boom")] [] (.str "v2boom") "raw" "r" (by decide) rfl rfl rfl
  · exact h4 "ep" 500 "nonsense" "e" "r" (by decide) (by decide)
  · exact h6 "ep" [("meta", .obj [("rc", .str "error"), ("msg", .str "bad")])]
      [("rc", .str "error"), ("msg", .str "bad")] "raw" rfl (by decide)

/-- A limit value on which Python `int()` cannot fail: absent (None),
"unlimited", or int-convertible; this is the shape of every limit
get_limits can produce from a well-formed .validation-config.yml. -/
def wfLimit (v : JVal) : Bool :=
  v.isNull || JVal.beq v (.str "unlimited") || (pyInt v).isSome

theorem validate_firewall_rules_caught (limits : Dict) (rules : List Dict)
    (hf : wfLimit (dictGetD limits "firewall_rules" .null) = true) :
    ∃ f, constraintCatch (validate_firewall_rules limits rules) = .ok f := by
  unfold validate_firewall_rules
  unfold wfLimit at hf
  dsimp only
  split
  · rename_i hguard
    simp only [Bool.and_eq_true, Bool.not_eq_true'] at hguard
    rw [hguard.1] at hf
    cases hpi : pyInt (dictGetD limits "firewall_rules" .null) with
    | none =>
        rw [hguard.2, hpi] at hf
        simp at hf
    | some m =>
        dsimp only
        split
        · exact ⟨_, rfl⟩
        · exact ⟨_, rfl⟩
  · exact ⟨_, rfl⟩

theorem validate_vlans_caught (limits : Dict) (networks : List Dict)
    (hv : wfLimit (dictGetD limits "vlans" .null) = true) :
    ∃ v, constraintCatch (validate_vlans limits networks) = .ok v := by
  unfold validate_vlans
  unfold wfLimit at hv
  dsimp only
  split
  · rename_i hguard
    simp only [Bool.and_eq_true, Bool.not_eq_true'] at hguard
    rw [hguard.1] at hv
    cases hpi : pyInt (dictGetD limits "vlans" .null) with
    | none =>
        rw [hguard.2, hpi] at hv
        simp at hv
    | some m =>
        dsimp only
        split
        · exact ⟨_, rfl⟩
        · exact ⟨_, rfl⟩
  · exact ⟨_, rfl⟩

/-- C7: with well-formed limits, validate_all always returns a result map
holding both the firewall and the vlans entry, each one exactly the outcome of
its own check run under its own constraint-violation handler (no short-circuit,
no violation exception escaping); a violating check appears as the valid=false
entry carrying the violation message while the other entry is unaffected. -/
theorem C7_validate_all_independent (limits : Dict) (st : CState)
    (hf : wfLimit (dictGetD limits "firewall_rules" .null) = true)
    (hv : wfLimit (dictGetD limits "vlans" .null) = true) :
    ∃ f v, constraintCatch (validate_firewall_rules limits st.firewall_rules) = .ok f ∧
      constraintCatch (validate_vlans limits st.networks) = .ok v ∧
      validate_all limits st = .ok [("firewall", .obj f), ("vlans", .obj v)] ∧
      (∀ m, validate_firewall_rules limits st.firewall_rules = .error (.constraintError m) →
        f = constraintFailDict m) ∧
      (∀ m, validate_vlans limits st.networks = .error (.constraintError m) →
        v = constraintFailDict m) := by
  obtain ⟨f, hfok⟩ := validate_firewall_rules_caught limits st.firewall_rules hf
  obtain ⟨v, hvok⟩ := validate_vlans_caught limits st.networks hv
  refine ⟨f, v, hfok, hvok, ?_, ?_, ?_⟩
  · unfold validate_all
    rw [hfok, hvok]
  · intro m hm
    rw [hm] at hfok
    simpa [constraintCatch] using hfok.symm
  · intro m hm
    rw [hm] at hvok
    simpa [constraintCatch] using hvok.symm

/-- Witness for C7: 15 firewall rules against a max of 10 (violation) and 3
corporate VLANs against a max of 10 (compliant) yield one failing and one
passing entry in the same validate_all result. -/
theorem C7_validate_all_independent_witness :
    ∃ f v, constraintCatch (validate_firewall_rules
        [("firewall_rules", .num 10), ("vlans", .num 10)] (List.replicate 15 [])) = .ok f ∧
      constraintCatch (validate_vlans [("firewall_rules", .num 10), ("vlans", .num 10)]
        (List.replicate 3 [("purpose", .str "corporate")])) = .ok v ∧
      validate_all [("firewall_rules", .num 10), ("vlans", .num 10)]
        ⟨List.replicate 15 [], List.replicate 3 [("purpose", .str "corporate")]⟩ =
        .ok [("firewall", .obj f), ("vlans", .obj v)] ∧
      (∀ m, validate_firewall_rules [("firewall_rules", .num 10), ("vlans", .num 10)]
          (List.replicate 15 []) = .error (.constraintError m) → f = constraintFailDict m) ∧
      (∀ m, validate_vlans [("firewall_rules", .num 10), ("vlans", .num 10)]
          (List.replicate 3 [("purpose", .str "corporate")]) = .error (.constraintError m) →
        v = constraintFailDict m) :=
  C7_validate_all_independent [("firewall_rules", .num 10), ("vlans", .num 10)]
    ⟨List.replicate 15 [], List.replicate 3 [("purpose", .str "corporate")]⟩
    (by decide) (by decide)

/-- C10: delete_zone refuses to delete a zone whose fetched record carries a
truthy default_zone flag — it raises "Cannot delete default zone ..." after
only the GET and issues no DELETE — while a zone found by name without that
flag is deleted with changed=true. -/
theorem C10_delete_zone_default_protection (env : Env) (zoneName : String)
    (z : Dict) (i : JVal)
    (hfind : env.zones.find?
      (fun z => JVal.beq (dictGetD z "name" .null) (.str zoneName)) = some z) :
    (JVal.truthy (dictGetD z "default_zone" .null) = true →
      delete_zone env zoneName =
        ([getZonesCall],
         .error (.baseError ("Cannot delete default zone \x27" ++ zoneName ++ "\x27"))) ∧
      callsReadOnly [getZonesCall]) ∧
    (JVal.truthy (dictGetD z "default_zone" .null) = false → dictGet? z "_id" = some i →
      delete_zone env zoneName =
        ([getZonesCall, ⟨"v2/api/site/default/firewall/zone/" ++ pyStr i, "DELETE", none⟩],
         .ok ⟨true,
              some (env.mutResp ("v2/api/site/default/firewall/zone/" ++ pyStr i) "DELETE"),
              none⟩)) := by
  constructor
  · intro hdef
    constructor
    · unfold delete_zone
      rw [hfind]
      simp [hdef]
    · intro c hc
      simp only [List.mem_singleton] at hc
      subst hc
      rfl
  · intro hdef hid
    unfold delete_zone
    rw [hfind]
    simp [hdef, hid]

/-- Environment for the C10 witness: one default-flagged zone Z, one plain
zone Y. -/
def zoneWitnessEnv : Env :=
  { networks := [], firewallRules := [], firewallGroups := [],
    zones := [[("name", .str "Z"), ("default_zone", .bool true), ("_id", .str "z1")],
              [("name", .str "Y"), ("_id", .str "y1")]],
    wlanConfigs := [], settings := fun _ => [],
    apgroupsV2 := .error "", apgroupsLegacy := .error "",
    mutResp := fun _ _ => .null }

/-- Witness for C10: the default zone is protected, the plain zone is deleted. -/
theorem C10_delete_zone_default_protection_witness :
    (delete_zone zoneWitnessEnv "Z" =
      ([getZonesCall], .error (.baseError "Cannot delete default zone \x27Z\x27"))) ∧
    (delete_zone zoneWitnessEnv "Y" =
      ([getZonesCall, ⟨"v2/api/site/default/firewall/zone/y1", "DELETE", none⟩],
       .ok ⟨true, some .null, none⟩)) := by
  constructor
  · exact ((C10_delete_zone_default_protection zoneWitnessEnv "Z"
      [("name", .str "Z"), ("default_zone", .bool true), ("_id", .str "z1")] .null
      rfl).1 rfl).1
  · exact (C10_delete_zone_default_protection zoneWitnessEnv "Y"
      [("name", .str "Y"), ("_id", .str "y1")] (.str "y1") rfl).2 rfl rfl

theorem cfrStateMap_get_ne (p : Dict) (k : String)
    (h1 : k ≠ "state") (h2 : k ≠ "enabled") :
    dictGet? (cfrStateMap p) k = dictGet? p k := by
  unfold cfrStateMap
  split
  · split
    · rw [dictGet?_pop_ne _ _ _ (Ne.symm h1), dictGet?_set_ne _ _ _ _ (Ne.symm h2)]
    · rw [dictGet?_pop_ne _ _ _ (Ne.symm h1)]
  · rfl

/-- C6: when create_firewall_rule is given a src_vlan (or dst_vlan) tag that
no fetched network resolves, it raises a UniFiError naming the missing tag
value, and the only HTTP call issued is the read-only network fetch — no
create or other mutating call happens in that failure case. -/
theorem C6_unresolvable_vlan_dependency (env : Env) (rd : Dict) (cm : Bool) (v : JVal)
    (hnone : ∀ n ∈ env.networks, vlanAliasMatch v n = false) :
    (dictGet? rd "src_vlan" = some v →
      create_firewall_rule env rd cm =
        ([getNetworksCall], .error (.baseError ("Source VLAN " ++ pyStr v ++ " not found"))) ∧
      callsReadOnly [getNetworksCall]) ∧
    (dictGet? rd "src_vlan" = none → dictGet? rd "dst_vlan" = some v →
      create_firewall_rule env rd cm =
        ([getNetworksCall],
         .error (.baseError ("Destination VLAN " ++ pyStr v ++ " not found"))) ∧
      callsReadOnly [getNetworksCall]) := by
  have hfind : env.networks.find? (vlanAliasMatch v) = none := by
    rw [List.find?_eq_none]
    intro n hn
    simp [hnone n hn]
  have hnet : findNetId env.networks v = .ok none := by
    unfold findNetId
    rw [hfind]
  have hro : callsReadOnly [getNetworksCall] := by
    intro c hc
    simp only [List.mem_singleton] at hc
    subst hc
    rfl
  constructor
  · intro hsrc
    have hp : dictGet? (cfrStateMap rd) "src_vlan" = some v :=
      (cfrStateMap_get_ne rd "src_vlan" (by decide) (by decide)).trans hsrc
    have hcont : dictContains (cfrStateMap rd) "src_vlan" = true := by
      unfold dictContains
      rw [hp]
      rfl
    have hgetD : dictGetD (cfrStateMap rd) "src_vlan" .null = v := by
      unfold dictGetD
      rw [hp]
      rfl
    have hvlan : cfrVlanPhase env (cfrStateMap rd) =
        ([getNetworksCall],
         .error (.baseError ("Source VLAN " ++ pyStr v ++ " not found"))) := by
      unfold cfrVlanPhase
      rw [hcont]
      simp only [Bool.true_or, if_true, hgetD, hnet]
      rfl
    have hasm : cfrAssemble env rd =
        ([getNetworksCall],
         .error (.baseError ("Source VLAN " ++ pyStr v ++ " not found"))) := by
      unfold cfrAssemble
      dsimp only
      rw [hvlan]
    refine ⟨?_, hro⟩
    unfold create_firewall_rule
    dsimp only
    rw [hasm]
  · intro hsrc hdst
    have hps : dictGet? (cfrStateMap rd) "src_vlan" = none :=
      (cfrStateMap_get_ne rd "src_vlan" (by decide) (by decide)).trans hsrc
    have hpd : dictGet? (cfrStateMap rd) "dst_vlan" = some v :=
      (cfrStateMap_get_ne rd "dst_vlan" (by decide) (by decide)).trans hdst
    have hconts : dictContains (cfrStateMap rd) "src_vlan" = false := by
      unfold dictContains
      rw [hps]
      rfl
    have hcontd : dictContains (cfrStateMap rd) "dst_vlan" = true := by
      unfold dictContains
      rw [hpd]
      rfl
    have hgetD : dictGetD (cfrStateMap rd) "dst_vlan" .null = v := by
      unfold dictGetD
      rw [hpd]
      rfl
    have hdstv : cfrDstVlan env.networks (cfrStateMap rd) =
        .error (.baseError ("Destination VLAN " ++ pyStr v ++ " not found")) := by
      unfold cfrDstVlan
      rw [hcontd]
      simp only [if_true, hgetD, hnet]
      rfl
    have hvlan : cfrVlanPhase env (cfrStateMap rd) =
        ([getNetworksCall],
         .error (.baseError ("Destination VLAN " ++ pyStr v ++ " not found"))) := by
      unfold cfrVlanPhase
      rw [hconts, hcontd]
      simp only [Bool.false_or, if_true, Bool.false_eq_true, if_false, hdstv]
    have hasm : cfrAssemble env rd =
        ([getNetworksCall],
         .error (.baseError ("Destination VLAN " ++ pyStr v ++ " not found"))) := by
      unfold cfrAssemble
      dsimp only
      rw [hvlan]
    refine ⟨?_, hro⟩
    unfold create_firewall_rule
    dsimp only
    rw [hasm]

/-- Witness for C6: src_vlan 10 with no network tagged 10 raises the naming
error after only the network GET; dst_vlan 20 likewise. -/
theorem C6_unresolvable_vlan_dependency_witness :
    (create_firewall_rule
        { networks := [[("name", .str "Default"), ("_id", .str "d1")]],
          firewallRules := [], firewallGroups := [], zones := [], wlanConfigs := [],
          settings := fun _ => [], apgroupsV2 := .error "", apgroupsLegacy := .error "",
          mutResp := fun _ _ => .null }
        [("name", .str "r"), ("src_vlan", .num 10)] false =
      ([getNetworksCall], .error (.baseError "Source VLAN 10 not found"))) ∧
    (create_firewall_rule
        { networks := [[("name", .str "Default"), ("_id", .str "d1")]],
          firewallRules := [], firewallGroups := [], zones := [], wlanConfigs := [],
          settings := fun _ => [], apgroupsV2 := .error "", apgroupsLegacy := .error "",
          mutResp := fun _ _ => .null }
        [("name", .str "r"), ("dst_vlan", .num 20)] false =
      ([getNetworksCall], .error (.baseError "Destination VLAN 20 not found"))) := by
  constructor
  · exact ((C6_unresolvable_vlan_dependency
      { networks := [[("name", .str "Default"), ("_id", .str "d1")]],
        firewallRules := [], firewallGroups := [], zones := [], wlanConfigs := [],
        settings := fun _ => [], apgroupsV2 := .error "", apgroupsLegacy := .error "",
        mutResp := fun _ _ => .null }
      [("name", .str "r"), ("src_vlan", .num 10)] false (.num 10)
      (by decide)).1 rfl).1
  · exact ((C6_unresolvable_vlan_dependency
      { networks := [[("name", .str "Default"), ("_id", .str "d1")]],
        firewallRules := [], firewallGroups := [], zones := [], wlanConfigs := [],
        settings := fun _ => [], apgroupsV2 := .error "", apgroupsLegacy := .error "",
        mutResp := fun _ _ => .null }
      [("name", .str "r"), ("dst_vlan", .num 20)] false (.num 20)
      (by decide)).2 rfl rfl).1

theorem callsReadOnly_nil : callsReadOnly [] := by
  intro c hc
  simp at hc

theorem callsReadOnly_append {a b : List Call} (ha : callsReadOnly a)
    (hb : callsReadOnly b) : callsReadOnly (a ++ b) := by
  intro c hc
  rcases List.mem_append.mp hc with h | h
  · exact ha c h
  · exact hb c h

theorem callsReadOnly_getNetworks : callsReadOnly [getNetworksCall] := by
  intro c hc
  simp only [List.mem_singleton] at hc
  subst hc
  rfl

theorem callsReadOnly_getGroups : callsReadOnly [getFirewallGroupsCall] := by
  intro c hc
  simp only [List.mem_singleton] at hc
  subst hc
  rfl

theorem cfrVlanPhase_readonly (env : Env) (p : Dict) :
    callsReadOnly (cfrVlanPhase env p).1 := by
  unfold cfrVlanPhase
  dsimp only
  split
  · split
    · cases findNetId env.networks (dictGetD p "src_vlan" .null) with
      | error e => exact callsReadOnly_getNetworks
      | ok o =>
          dsimp only
          by_cases ht : (!truthyOpt o) = true
          · rw [if_pos ht]
            exact callsReadOnly_getNetworks
          · rw [if_neg ht]
            exact callsReadOnly_getNetworks
    · exact callsReadOnly_getNetworks
  · exact callsReadOnly_nil

theorem cfrGroupPhase_readonly (env : Env) (p : Dict) :
    callsReadOnly (cfrGroupPhase env p).1 := by
  unfold cfrGroupPhase
  dsimp only
  split
  · split
    · cases findGroupId env.firewallGroups (dictGetD p "src_group" .null) with
      | error e => exact callsReadOnly_getGroups
      | ok o =>
          dsimp only
          by_cases ht : (!truthyOpt o) = true
          · rw [if_pos ht]
            exact callsReadOnly_getGroups
          · rw [if_neg ht]
            exact callsReadOnly_getGroups
    · exact callsReadOnly_getGroups
  · exact callsReadOnly_nil

theorem cfrAssemble_readonly (env : Env) (rd : Dict) :
    callsReadOnly (cfrAssemble env rd).1 := by
  unfold cfrAssemble
  dsimp only
  rcases hv : cfrVlanPhase env (cfrStateMap rd) with ⟨calls, r⟩
  have hro1 : callsReadOnly calls := by
    have h := cfrVlanPhase_readonly env (cfrStateMap rd)
    rw [hv] at h
    exact h
  cases r with
  | error e => exact hro1
  | ok p1 =>
      dsimp only
      rcases hg : cfrGroupPhase env (cfrIpRenames p1) with ⟨gcalls, r2⟩
      have hro2 : callsReadOnly gcalls := by
        have h := cfrGroupPhase_readonly env (cfrIpRenames p1)
        rw [hg] at h
        exact h
      cases r2 with
      | error e => exact callsReadOnly_append hro1 hro2
      | ok p3 => exact callsReadOnly_append hro1 hro2

/-- C1 (amended): when the payload's dependencies all resolve (the assembly
phase returns a payload rather than raising), a firewall-rule create whose
name already appears in the fetched collection returns changed=false having
issued only read-only calls; a firewall-group create with a name match does so
unconditionally (it has no dependency phase). Invoking the same create twice
with an identical payload therefore yields changed=false on the second call
with no second mutating call. -/
theorem C1_create_idempotent_skip (env : Env) (rd gd : Dict) (cm : Bool)
    (calls : List Call) (payload rule g : Dict) :
    (cfrAssemble env rd = (calls, .ok payload) →
     env.firewallRules.find?
       (fun r => JVal.beq (dictGetD r "name" .null) (dictGetD rd "name" .null)) = some rule →
     create_firewall_rule env rd cm =
       (calls ++ [getFirewallRulesCall],
        .ok ⟨false, some (.obj rule), some "Firewall rule already exists"⟩) ∧
     callsReadOnly (calls ++ [getFirewallRulesCall])) ∧
    (env.firewallGroups.find?
       (fun x => JVal.beq (dictGetD x "name" .null) (dictGetD gd "name" .null)) = some g →
     create_firewall_group env gd =
       ([getFirewallGroupsCall],
        .ok ⟨false, some (.obj g), some "Firewall group already exists"⟩) ∧
     callsReadOnly [getFirewallGroupsCall]) := by
  constructor
  · intro hasm hfind
    have hro : callsReadOnly (calls ++ [getFirewallRulesCall]) := by
      refine callsReadOnly_append ?_ ?_
      · have h := cfrAssemble_readonly env rd
        rw [hasm] at h
        exact h
      · intro c hc
        simp only [List.mem_singleton] at hc
        subst hc
        rfl
    refine ⟨?_, hro⟩
    unfold create_firewall_rule
    dsimp only
    rw [hasm, hfind]
  · intro hfind
    constructor
    · unfold create_firewall_group
      dsimp only
      rw [hfind]
    · intro c hc
      simp only [List.mem_singleton] at hc
      subst hc
      rfl

/-- Environment for the C1 witness: the rule r2 and the group G already exist. -/
def c1WitnessEnv : Env :=
  { networks := [], firewallRules := [[("name", .str "r2")]],
    firewallGroups := [[("name", .str "G")]], zones := [], wlanConfigs := [],
    settings := fun _ => [], apgroupsV2 := .error "", apgroupsLegacy := .error "",
    mutResp := fun _ _ => .null }

/-- Witness for C1: re-creating the existing rule r2 and the existing group G
returns changed=false after only the idempotency GET. -/
theorem C1_create_idempotent_skip_witness :
    (create_firewall_rule c1WitnessEnv [("name", .str "r2")] false =
      ([getFirewallRulesCall],
       .ok ⟨false, some (.obj [("name", .str "r2")]), some "Firewall rule already exists"⟩)) ∧
    (create_firewall_group c1WitnessEnv [("name", .str "G")] =
      ([getFirewallGroupsCall],
       .ok ⟨false, some (.obj [("name", .str "G")]), some "Firewall group already exists"⟩)) := by
  constructor
  · exact ((C1_create_idempotent_skip c1WitnessEnv [("name", .str "r2")] [("name", .str "G")]
      false []
      [("name", .str "r2"), ("src_networkconf_type", .str "NETv4"),
       ("dst_networkconf_type", .str "NETv4"), ("enabled", .bool true),
       ("protocol", .str "all"), ("logging", .bool false),
       ("setting_preference", .str "auto"), ("state_established", .bool false),
       ("state_invalid", .bool false), ("state_new", .bool false),
       ("state_related", .bool false)]
      [("name", .str "r2")] [("name", .str "G")]).1 rfl rfl).1
  · exact ((C1_create_idempotent_skip c1WitnessEnv [("name", .str "r2")] [("name", .str "G")]
      false [] [] [("name", .str "r2")] [("name", .str "G")]).2 rfl).1

/-- Environment for the C1 counterexample: the rule named r already exists,
but its src_vlan 10 no longer resolves against the (empty-tag) network list. -/
def c1CxEnv : Env :=
  { networks := [], firewallRules := [[("name", .str "r")]], firewallGroups := [],
    zones := [], wlanConfigs := [], settings := fun _ => [],
    apgroupsV2 := .error "", apgroupsLegacy := .error "",
    mutResp := fun _ _ => .null }

/-- Counterexample for C1 as stated: the current collection contains a record
whose name matches the requested rule (and the name is the only field the
operation compares), yet create_firewall_rule raises "Source VLAN 10 not
found" instead of returning changed=false, because dependency resolution runs
before the idempotency check. -/
theorem C1_create_idempotent_skip_counterexample :
    c1CxEnv.firewallRules = [[("name", .str "r")]] ∧
    JVal.beq (dictGetD [("name", .str "r")] "name" .null)
      (dictGetD [("name", .str "r"), ("src_vlan", .num 10)] "name" .null) = true ∧
    create_firewall_rule c1CxEnv [("name", .str "r"), ("src_vlan", .num 10)] false =
      ([getNetworksCall], .error (.baseError "Source VLAN 10 not found")) :=
  ⟨rfl, rfl, rfl⟩

/-- C2 (amended): for the setting-update reconciliation (update_setting), when
the fetched record exists and at least one caller field differs from it, the
operation PUTs exactly the existing record overlaid with the caller's payload,
so every field of the existing record not present in the payload appears
unchanged in the sent body (no silent field loss). create_network does not
share this shape — see the counterexample. -/
theorem C2_update_setting_merge_preserve (env : Env) (key : String)
    (payload co : Dict) (rest : List Dict) (sid : JVal) (k : String) (v : JVal)
    (hset : env.settings key = co :: rest)
    (hid : dictGet? co "_id" = some sid)
    (hnodup : (payload.map Prod.fst).Nodup)
    (hk : dictGet? payload k = some v)
    (hdiff : optJBeq (some v) (dictGet? co k) = false) :
    update_setting env key payload =
      ([⟨"api/s/default/rest/setting/" ++ key, "GET", none⟩,
        ⟨"api/s/default/rest/setting/" ++ key ++ "/" ++ pyStr sid, "PUT",
         some (.obj (dictUpdate co payload))⟩],
       .ok ⟨true,
            some (env.mutResp ("api/s/default/rest/setting/" ++ key ++ "/" ++ pyStr sid) "PUT"),
            none⟩) ∧
    (∀ k2, dictGet? payload k2 = none →
      dictGet? (dictUpdate co payload) k2 = dictGet? co k2) ∧
    dictGet? (dictUpdate co payload) k = some v := by
  have hdata : dictGet? (dictUpdate co payload) k = some v :=
    dictGet?_update_present co payload k v hnodup hk
  have hne : JVal.beq (.obj (dictUpdate co payload)) (.obj co) = false :=
    beq_obj_false_of_lookup_diff hdata hdiff
  refine ⟨?_, fun k2 h => dictGet?_update_absent co payload k2 h, hdata⟩
  unfold update_setting
  rw [hset]
  dsimp only
  rw [hid]
  dsimp only
  rw [if_neg (by simp [hne])]
  rfl

/-- Environment for the C2 witness: the mgmt setting holds _id s1, a=1, b=2. -/
def c2WitnessEnv : Env :=
  { networks := [], firewallRules := [], firewallGroups := [], zones := [],
    wlanConfigs := [],
    settings := fun k => if k == "mgmt" then
      [[("_id", .str "s1"), ("a", .num 1), ("b", .num 2)]] else [],
    apgroupsV2 := .error "", apgroupsLegacy := .error "",
    mutResp := fun _ _ => .null }

/-- Witness for C2: updating a=5 on the mgmt setting PUTs the merged record
in which the untouched fields _id and b are preserved. -/
theorem C2_update_setting_merge_preserve_witness :
    update_setting c2WitnessEnv "mgmt" [("a", .num 5)] =
      ([⟨"api/s/default/rest/setting/mgmt", "GET", none⟩,
        ⟨"api/s/default/rest/setting/mgmt/s1", "PUT",
         some (.obj (dictUpdate [("_id", .str "s1"), ("a", .num 1), ("b", .num 2)]
           [("a", .num 5)]))⟩],
       .ok ⟨true, some .null, none⟩) ∧
    (∀ k2, dictGet? [("a", .num 5)] k2 = none →
      dictGet? (dictUpdate [("_id", .str "s1"), ("a", .num 1), ("b", .num 2)] [("a", .num 5)]) k2 =
        dictGet? [("_id", .str "s1"), ("a", .num 1), ("b", .num 2)] k2) ∧
    dictGet? (dictUpdate [("_id", .str "s1"), ("a", .num 1), ("b", .num 2)] [("a", .num 5)]) "a" =
      some (.num 5) :=
  C2_update_setting_merge_preserve c2WitnessEnv "mgmt" [("a", .num 5)]
    [("_id", .str "s1"), ("a", .num 1), ("b", .num 2)] [] (.str "s1") "a" (.num 5)
    rfl rfl (by simp) rfl (by decide)

/-- Environment for the C2 counterexample: the existing LAN network carries
dhcpd_enabled, which the caller's update payload does not mention. -/
def c2CxEnv : Env :=
  { networks := [[("name", .str "LAN"), ("ip_subnet", .str "10.0.0.0/24"),
                  ("dhcpd_enabled", .bool true), ("_id", .str "n1")]],
    firewallRules := [], firewallGroups := [], zones := [], wlanConfigs := [],
    settings := fun _ => [], apgroupsV2 := .error "", apgroupsLegacy := .error "",
    mutResp := fun _ _ => .null }

/-- Counterexample for C2 as stated: create_network matches LAN by name, sees
the subnet differ, and issues its update PUT with the caller's payload as the
body — the existing record's dhcpd_enabled field is absent from the sent
payload, so the claimed merge-preserve semantics does not hold for this
reconciliation operation. -/
theorem C2_update_setting_merge_preserve_counterexample :
    (create_network c2CxEnv [("name", .str "LAN"), ("subnet", .str "10.0.1.0/24")] false).1 =
      [getNetworksCall,
       ⟨"api/s/default/rest/networkconf/n1", "PUT",
        some (.obj [("name", .str "LAN"), ("ip_subnet", .str "10.0.1.0/24")])⟩] ∧
    dictGet? [("name", .str "LAN"), ("ip_subnet", .str "10.0.1.0/24")] "dhcpd_enabled" = none ∧
    dictGet? [("name", .str "LAN"), ("ip_subnet", .str "10.0.0.0/24"),
              ("dhcpd_enabled", .bool true), ("_id", .str "n1")] "dhcpd_enabled" =
      some (.bool true) :=
  ⟨rfl, rfl, rfl⟩

/-- C3 (amended): for create_firewall_rule, check_mode still performs the
payload assembly, the current-collection fetch and the natural-key match:
it issues only read-only calls, raises exactly when a live run would raise,
computes the same changed verdict a live run would, and the idempotency fetch
is in its trace whenever assembly succeeds. (create_network and
create_target_object do not obey this — see the counterexample.) -/
theorem C3_check_mode_soundness (env : Env) (rd : Dict) :
    callsReadOnly (create_firewall_rule env rd true).1 ∧
    (∀ e, (create_firewall_rule env rd true).2 = .error e ↔
          (create_firewall_rule env rd false).2 = .error e) ∧
    (∀ r r', (create_firewall_rule env rd true).2 = .ok r →
             (create_firewall_rule env rd false).2 = .ok r' →
             r.changed = r'.changed) ∧
    (∀ calls payload, cfrAssemble env rd = (calls, .ok payload) →
        getFirewallRulesCall ∈ (create_firewall_rule env rd true).1) := by
  have hfetchro : callsReadOnly [getFirewallRulesCall] := by
    intro c hc
    simp only [List.mem_singleton] at hc
    subst hc
    rfl
  have hacalls := cfrAssemble_readonly env rd
  unfold create_firewall_rule
  dsimp only
  rcases ha : cfrAssemble env rd with ⟨calls, r⟩
  rw [ha] at hacalls
  cases r with
  | error e0 =>
      refine ⟨hacalls, fun e => Iff.rfl, ?_, ?_⟩
      · intro r r' hr
        simp at hr
      · intro calls2 payload2 h2
        simp at h2
  | ok payload =>
      cases hf : env.firewallRules.find?
          (fun r => JVal.beq (dictGetD r "name" .null) (dictGetD rd "name" .null)) with
      | some rule =>
          refine ⟨callsReadOnly_append hacalls hfetchro, fun e => Iff.rfl, ?_, ?_⟩
          · intro r r' hr hr'
            simp only [Except.ok.injEq] at hr hr'
            rw [← hr, ← hr']
          · intro calls2 payload2 h2
            simp [List.mem_append]
      | none =>
          simp only [reduceIte]
          refine ⟨callsReadOnly_append hacalls hfetchro, ?_, ?_, ?_⟩
          · intro e
            constructor
            · intro h
              simp at h
            · intro h
              simp at h
          · intro r r' hr hr'
            simp only [Bool.false_eq_true, if_false, Except.ok.injEq] at hr hr'
            rw [← hr, ← hr']
          · intro calls2 payload2 h2
            simp [List.mem_append]

/-- Environment for the C3 witness: the rule named R already exists. -/
def c3WitnessEnv : Env :=
  { networks := [], firewallRules := [[("name", .str "R")]], firewallGroups := [],
    zones := [], wlanConfigs := [], settings := fun _ => [],
    apgroupsV2 := .error "", apgroupsLegacy := .error "",
    mutResp := fun _ _ => .null }

/-- Witness for C3: on the existing rule R, check mode and live mode both
compute changed=false, and the check-mode trace contains the idempotency
fetch. -/
theorem C3_check_mode_soundness_witness :
    OpRes.changed ⟨false, some (.obj [("name", .str "R")]), some "Firewall rule already exists"⟩ =
      OpRes.changed ⟨false, some (.obj [("name", .str "R")]), some "Firewall rule already exists"⟩ ∧
    getFirewallRulesCall ∈ (create_firewall_rule c3WitnessEnv [("name", .str "R")] true).1 := by
  constructor
  · exact (C3_check_mode_soundness c3WitnessEnv [("name", .str "R")]).2.2.1 _ _ rfl rfl
  · exact (C3_check_mode_soundness c3WitnessEnv [("name", .str "R")]).2.2.2 []
      [("name", .str "R"), ("src_networkconf_type", .str "NETv4"),
       ("dst_networkconf_type", .str "NETv4"), ("enabled", .bool true),
       ("protocol", .str "all"), ("logging", .bool false),
       ("setting_preference", .str "auto"), ("state_established", .bool false),
       ("state_invalid", .bool false), ("state_new", .bool false),
       ("state_related", .bool false)] rfl

/-- Environment for the C3 counterexample: the LAN network already exists with
exactly the requested subnet. -/
def c3CxEnv : Env :=
  { networks := [[("name", .str "LAN"), ("ip_subnet", .str "10.0.0.0/24"), ("_id", .str "n1")]],
    firewallRules := [], firewallGroups := [], zones := [], wlanConfigs := [],
    settings := fun _ => [], apgroupsV2 := .error "", apgroupsLegacy := .error "",
    mutResp := fun _ _ => .null }

/-- Counterexample for C3 as stated: with the identical network already
present, create_network in check_mode answers changed=true without issuing
any call at all (no fetch, no natural-key match), while the live run fetches
and returns changed=false — check mode short-circuits before idempotency
detection and reports the wrong would-be verdict; create_target_object in
check_mode likewise answers without any fetch. -/
theorem C3_check_mode_soundness_counterexample :
    create_network c3CxEnv [("name", .str "LAN"), ("subnet", .str "10.0.0.0/24")] true =
      ([], .ok ⟨true, none, some "Network LAN would be created (check_mode)"⟩) ∧
    (create_network c3CxEnv [("name", .str "LAN"), ("subnet", .str "10.0.0.0/24")] false).2 =
      .ok ⟨false,
           some (.obj [("name", .str "LAN"), ("ip_subnet", .str "10.0.0.0/24"),
                       ("_id", .str "n1")]),
           some ("Network already exists and matches (Match Name: True, " ++
             "Match VLAN: False, Match Subnet: True)")⟩ ∧
    create_target_object c3CxEnv [("name", .str "O")] true =
      ([], .ok ⟨true, none, some "Object \x27O\x27 would be managed"⟩) :=
  ⟨rfl, rfl, rfl⟩

/-- C8 (amended): where firewall-rule creation resolves a VLAN tag to a
network id (findNetId, shared by the src and dst branches), a requested VLAN
id whose str() is "1" matches a network record named "Default" even when that
record carries no vlan key, and resolution succeeds on its _id.
create_wlan_config does not apply this alias — see the counterexample. -/
theorem C8_vlan_default_alias (n : Dict) (v i : JVal)
    (hname : dictGetD n "name" .null = .str "Default")
    (hnovlan : dictGet? n "vlan" = none)
    (hv : pyStr v = "1")
    (hid : dictGet? n "_id" = some i)
    (htr : JVal.truthy i = true) :
    findNetId [n] v = .ok (some i) ∧ truthyOpt (some i) = true := by
  have hmatch : vlanAliasMatch v n = true := by
    unfold vlanAliasMatch
    rw [hv, hname]
    simp [JVal.beq]
  constructor
  · unfold findNetId
    have hfind : List.find? (vlanAliasMatch v) [n] = some n := by
      simp [List.find?, hmatch]
    rw [hfind]
    dsimp only
    rw [hid]
  · simpa [truthyOpt] using htr

/-- Witness for C8: VLAN id 1 resolves against the single untagged network
named Default, yielding its _id. -/
theorem C8_vlan_default_alias_witness :
    findNetId [[("name", .str "Default"), ("_id", .str "d1")]] (.num 1) =
      .ok (some (.str "d1")) ∧
    truthyOpt (some (.str "d1")) = true :=
  C8_vlan_default_alias [("name", .str "Default"), ("_id", .str "d1")] (.num 1) (.str "d1")
    rfl rfl rfl rfl (by decide)

/-- Environment for the C8 counterexample: the network list contains exactly
the untagged Default network. -/
def c8CxEnv : Env :=
  { networks := [[("name", .str "Default"), ("_id", .str "d1")]],
    firewallRules := [], firewallGroups := [], zones := [], wlanConfigs := [],
    settings := fun _ => [], apgroupsV2 := .error "", apgroupsLegacy := .error "",
    mutResp := fun _ _ => .null }

/-- Counterexample for C8 as stated: create_wlan_config also resolves a VLAN
tag to a network identifier, but against the same network list it raises
"VLAN 1 not found" instead of matching the untagged Default network — its
resolution compares only str(n.get("vlan")) and has no Default alias. -/
theorem C8_vlan_default_alias_counterexample :
    create_wlan_config c8CxEnv [("name", .str "S"), ("vlan_id", .num 1)] false =
      ([getNetworksCall], .error (.apiError "VLAN 1 not found; cannot link SSID S")) :=
  rfl

theorem simApiCallRaw_eval (st : SimSt) (ep m : String) :
    simApiCallRaw st ep m =
      ({ st with audit := st.audit ++ [⟨"simulation_api_call",
          [("endpoint", .str ep), ("method", .str m)]⟩] }, simResponse ep) := rfl

theorem discover_sites_sim_eval (st : SimSt) :
    discover_sites_sim st =
      { siteUuid := some "site_default_id",
        audit := st.audit ++
          [⟨"simulation_api_call",
            [("endpoint", .str "integration/v1/sites"), ("method", .str "GET")]⟩,
           ⟨"site_discovered",
            [("site_uuid", .str "site_default_id"), ("count", .num 1)]⟩] } := by
  show SimSt.mk (some "site_default_id")
      ((st.audit ++ [⟨"simulation_api_call",
          [("endpoint", .str "integration/v1/sites"), ("method", .str "GET")]⟩]) ++
        [⟨"site_discovered", [("site_uuid", .str "site_default_id"), ("count", .num 1)]⟩]) = _
  rw [List.append_assoc]
  rfl

theorem apiCallSim_raw (st : SimSt) (e : String) (m : Option String)
    (kw : List (String × String)) (hreg : lookupReg e = none) :
    apiCallSim st e m kw =
      ({ st with audit := st.audit ++ [⟨"simulation_api_call",
          [("endpoint", .str e), ("method", .str (m.getD "GET"))]⟩] }, simResponse e) := by
  unfold apiCallSim
  rw [hreg]
  rfl

theorem apiCallSim_reg_cached (st : SimSt) (e : String) (m : Option String)
    (kw : List (String × String)) (entry : RegEntry)
    (hreg : lookupReg e = some entry)
    (hneed : (substrContains entry.path "\x7bsite_uuid\x7d" && st.siteUuid.isNone) = false) :
    apiCallSim st e m kw =
      ({ st with audit := st.audit ++ [⟨"simulation_api_call",
          [("endpoint", .str (fmtPath entry.path (st.siteUuid.getD "PENDING") kw)),
           ("method", .str (m.getD entry.method))]⟩] },
       simResponse (fmtPath entry.path (st.siteUuid.getD "PENDING") kw)) := by
  unfold apiCallSim
  rw [hreg]
  dsimp only
  rw [if_neg (by simp [hneed])]
  rfl

theorem apiCallSim_reg_discover (st : SimSt) (e : String) (m : Option String)
    (kw : List (String × String)) (entry : RegEntry)
    (hreg : lookupReg e = some entry)
    (hneed : (substrContains entry.path "\x7bsite_uuid\x7d" && st.siteUuid.isNone) = true) :
    apiCallSim st e m kw =
      ({ siteUuid := some "site_default_id",
         audit := st.audit ++
           [⟨"simulation_api_call",
             [("endpoint", .str "integration/v1/sites"), ("method", .str "GET")]⟩,
            ⟨"site_discovered",
             [("site_uuid", .str "site_default_id"), ("count", .num 1)]⟩,
            ⟨"simulation_api_call",
             [("endpoint", .str (fmtPath entry.path "site_default_id" kw)),
              ("method", .str (m.getD entry.method))]⟩] },
       simResponse (fmtPath entry.path "site_default_id" kw)) := by
  unfold apiCallSim
  rw [hreg]
  dsimp only
  rw [if_pos hneed, discover_sites_sim_eval, simApiCallRaw_eval]
  dsimp only
  rw [List.append_assoc]
  rfl

/-- C9 (amended): with simulation enabled, two api_call invocations with the
same endpoint and method return identical canned payloads, selected purely by
the ordered path-substring table; the second invocation appends exactly one
audit event, and so does any invocation that does not trigger site-UUID
discovery (a registry path referencing the site UUID while none is cached);
an invocation that does trigger discovery additionally appends the two
discovery events. The simulation path is a pure function of the endpoint,
method and cached UUID — no network or authentication state enters it. -/
theorem C9_simulation_determinism (st : SimSt) (e : String) (m : Option String)
    (kw : List (String × String)) :
    ((apiCallSim st e m kw).2 = (apiCallSim (apiCallSim st e m kw).1 e m kw).2) ∧
    ((apiCallSim (apiCallSim st e m kw).1 e m kw).1.audit.length =
      (apiCallSim st e m kw).1.audit.length + 1) ∧
    (∀ entry, lookupReg e = some entry →
      ¬ (substrContains entry.path "\x7bsite_uuid\x7d" = true ∧ st.siteUuid = none) →
      (apiCallSim st e m kw).1.audit.length = st.audit.length + 1) ∧
    (lookupReg e = none →
      (apiCallSim st e m kw).1.audit.length = st.audit.length + 1) := by
  cases hreg : lookupReg e with
  | none =>
      have h1 := apiCallSim_raw st e m kw hreg
      have h2 := apiCallSim_raw (apiCallSim st e m kw).1 e m kw hreg
      refine ⟨?_, ?_, ?_, ?_⟩
      · rw [h2, h1]
      · rw [h2, h1]
        simp
      · intro entry hentry hnot
        cases hentry
      · intro _
        rw [h1]
        simp
  | some entry =>
      by_cases hneed : (substrContains entry.path "\x7bsite_uuid\x7d" &&
          st.siteUuid.isNone) = true
      · have h1 := apiCallSim_reg_discover st e m kw entry hreg hneed
        have hneed2 : (substrContains entry.path "\x7bsite_uuid\x7d" &&
            (apiCallSim st e m kw).1.siteUuid.isNone) = false := by
          rw [h1]
          simp
        have h2 := apiCallSim_reg_cached (apiCallSim st e m kw).1 e m kw entry hreg hneed2
        refine ⟨?_, ?_, ?_, ?_⟩
        · rw [h2, h1]
          rfl
        · rw [h2, h1]
          simp
        · intro entry2 hentry2 hnot
          cases hentry2
          exfalso
          apply hnot
          simp only [Bool.and_eq_true, Option.isNone_iff_eq_none] at hneed
          exact hneed
        · intro h
          cases h
      · have hneedF : (substrContains entry.path "\x7bsite_uuid\x7d" &&
            st.siteUuid.isNone) = false := by
          cases hb : (substrContains entry.path "\x7bsite_uuid\x7d" && st.siteUuid.isNone)
          · rfl
          · exact absurd hb hneed
        have h1 := apiCallSim_reg_cached st e m kw entry hreg hneedF
        have hneed2 : (substrContains entry.path "\x7bsite_uuid\x7d" &&
            (apiCallSim st e m kw).1.siteUuid.isNone) = false := by
          rw [h1]
          exact hneedF
        have h2 := apiCallSim_reg_cached (apiCallSim st e m kw).1 e m kw entry hreg hneed2
        refine ⟨?_, ?_, ?_, ?_⟩
        · rw [h2, h1]
        · rw [h2, h1]
          simp
        · intro entry2 hentry2 hnot
          rw [h1]
          simp
        · intro h
          cases h

/-- Witness for C9: on a fresh simulation state, get_devices returns the same
canned payload on two successive calls, and get_devices_legacy (no site-UUID
placeholder in its path) appends exactly one audit event. -/
theorem C9_simulation_determinism_witness :
    ((apiCallSim ⟨none, []⟩ "get_devices" none []).2 =
      (apiCallSim (apiCallSim ⟨none, []⟩ "get_devices" none []).1 "get_devices" none []).2) ∧
    ((apiCallSim ⟨none, []⟩ "get_devices_legacy" none []).1.audit.length =
      ([] : List AuditEv).length + 1) := by
  constructor
  · exact (C9_simulation_determinism ⟨none, []⟩ "get_devices" none []).1
  · exact (C9_simulation_determinism ⟨none, []⟩ "get_devices_legacy" none []).2.2.1
      ⟨"api/s/\x7bsite_id\x7d/stat/device", "GET", "Bauer",
       "Get devices using legacy stat API (includes _id)"⟩
      rfl (by decide)

/-- Counterexample for C9 as stated: the very first get_devices invocation on
a fresh simulation state appends three audit events (the simulated sites call,
site_discovered, and its own simulation_api_call), not exactly one. -/
theorem C9_simulation_determinism_counterexample :
    (apiCallSim ⟨none, []⟩ "get_devices" none []).1.audit.length = 3 ∧
    ((apiCallSim ⟨none, []⟩ "get_devices" none []).1.audit.map AuditEv.event =
      ["simulation_api_call", "site_discovered", "simulation_api_call"]) :=
  ⟨rfl, rfl⟩

end UniFiSpec
